import Mathlib

/-!
# Smoke3D: buffer roles of the fluid solver

A shallow embedding of `Poisson3D.cpp` and `Fluid3D.cpp`.

Every `Texture3D` instance is a buffer identity (its index in the table of textures the device
has created).  The immediate context is the table of compute-stage bindings together with the
list of dispatches issued so far; a dispatch records the compute shader, the thread-group counts
and the shader-resource and unordered-access bindings in force when it was issued.

Smart pointers are `Option Buf` (`none` is the null pointer); a member function that dereferences
a null pointer has no result (`none`).

Setting views replaces the content of the slots named in the call and nothing else; a binding
stays in force until a later call replaces it.  What the runtime does on its own to conflicting
bindings is not part of the sources and is not embedded.

Not embedded: the arithmetic the kernels perform, the floating-point parameters (time step,
force, impulse location), samplers and constant buffers.  None of them influences which buffer
plays which role.
-/

namespace Smoke3D

/-- Identity of a texture instance. -/
abbrev Buf := Nat

/-- Storage formats of `dxgiformat.h` (an excerpt of the SDK enumeration). -/
inductive DXGI_FORMAT
  | R32G32B32A32_FLOAT
  | R32G32B32_FLOAT
  | R16G16B16A16_FLOAT
  | R32G32_FLOAT
  | R11G11B10_FLOAT
  | R8G8B8A8_UNORM
  | R16G16_FLOAT
  | R32_FLOAT
  | R32_UINT
  | R32_SINT
  | R8G8_UNORM
  | R16_FLOAT
  | R16_UNORM
  | R16_UINT
  | R8_UNORM
  | R8_UINT
  deriving DecidableEq

/-- Number of channels of a storage format. -/
def DXGI_FORMAT.channels : DXGI_FORMAT → Nat
  | R32G32B32A32_FLOAT => 4
  | R32G32B32_FLOAT => 3
  | R16G16B16A16_FLOAT => 4
  | R32G32_FLOAT => 2
  | R11G11B10_FLOAT => 3
  | R8G8B8A8_UNORM => 4
  | R16G16_FLOAT => 2
  | R32_FLOAT => 1
  | R32_UINT => 1
  | R32_SINT => 1
  | R8G8_UNORM => 2
  | R16_FLOAT => 1
  | R16_UNORM => 1
  | R16_UINT => 1
  | R8_UNORM => 1
  | R8_UINT => 1

/-- Constants of `SharedMacros.h` and default arguments of `Poisson3D.h`.  Neither header is among
the sources, so their values are parameters of the development; the two conditional-compilation
symbols of `Fluid3D.cpp` are parameters as well. -/
structure SharedMacros where
  THREAD_BLOCK_X : Nat
  THREAD_BLOCK_Y : Nat
  THREAD_BLOCK_Z : Nat
  g_uCSAdvect : Nat
  g_uCSMacCormack : Nat
  g_uCSDiffuse : Nat
  g_uCSImpulse : Nat
  g_uCSDivergence : Nat
  g_uCSPressure : Nat
  g_uCSTemporal : Nat
  g_uCSProject : Nat
  g_uCSBound : Nat
  g_uCSRayCast : Nat
  /-- Default of the second parameter of `SetShaders`. -/
  uCSTemporalDefault : Nat
  /-- Default of the third parameter of `SetShaders`. -/
  uCSDivDefault : Nat
  /-- Default of the parameter of `SolvePoisson`. -/
  uIterationDefault : Nat
  /-- Whether `_MACCORMACK_` is defined. -/
  MACCORMACK : Bool
  /-- Whether `_ADVECT_PRESSURE_` is defined. -/
  ADVECT_PRESSURE : Bool
  deriving DecidableEq

/-! ## Device and immediate context -/

/-- What `Texture3D::Create` was asked for: the extents, the format, and the size in bytes of the
zero-filled initial data (`none` when the texture is created without initial data). -/
structure Texture3D where
  uWidth : Nat
  uHeight : Nat
  uDepth : Nat
  format : DXGI_FORMAT
  zeroData : Option Nat
  deriving DecidableEq

/-- The textures created on the device; a texture is identified by its position. -/
structure Device where
  textures : List Texture3D
  deriving DecidableEq

/-- Allocation of a new texture: `make_shared<Texture3D>` followed by `Create`. -/
def Device.Create (dev : Device) (t : Texture3D) : Buf × Device :=
  (dev.textures.length, { textures := dev.textures ++ [t] })

/-- Binding table of one kind of view: the bound slots in increasing slot order, each with the
buffer whose view is bound there.  A slot that is absent holds a null view. -/
abbrev Slots := List (Nat × Buf)

/-- Bind the view of buffer `b` to slot `i`, replacing what was there. -/
def Slots.bind : Slots → Nat → Buf → Slots
  | [], i, b => [(i, b)]
  | (j, c) :: rest, i, b =>
    if i < j then (i, b) :: (j, c) :: rest
    else if i = j then (i, b) :: rest
    else (j, c) :: Slots.bind rest i b

/-- Set slot `i` to the null view. -/
def Slots.unbind (s : Slots) (i : Nat) : Slots :=
  s.filter (fun p => p.1 != i)

/-- Set one slot to a view that may be null. -/
def Slots.set (s : Slots) (i : Nat) : Option Buf → Slots
  | some b => Slots.bind s i b
  | none => Slots.unbind s i

/-- Set consecutive slots, the first one being `start`. -/
def Slots.setViews : Slots → Nat → List (Option Buf) → Slots
  | s, _, [] => s
  | s, start, v :: vs => Slots.setViews (Slots.set s start v) (start + 1) vs

/-- The buffers bound in a table. -/
def Slots.buffers (s : Slots) : List Buf :=
  s.map (fun p => p.2)

/-- One `Dispatch` call: the compute shader in force, the thread-group counts, and the bindings
in force. -/
structure Dispatch where
  shader : Option Nat
  groups : Nat × Nat × Nat
  srv : Slots
  uav : Slots
  deriving DecidableEq

/-- Buffers a dispatch has bound as shader resources. -/
def Dispatch.reads (d : Dispatch) : List Buf := Slots.buffers d.srv

/-- Buffers a dispatch has bound as unordered-access targets. -/
def Dispatch.writes (d : Dispatch) : List Buf := Slots.buffers d.uav

/-- No buffer is bound both as a shader resource and as an unordered-access target. -/
def Dispatch.hazardFree (d : Dispatch) : Prop :=
  ∀ b ∈ d.reads, b ∉ d.writes

instance (d : Dispatch) : Decidable d.hazardFree := by
  unfold Dispatch.hazardFree; infer_instance

/-- Compute stage of the immediate context, and the dispatches issued on it. -/
structure Context where
  cs : Option Nat
  srv : Slots
  uav : Slots
  log : List Dispatch
  deriving DecidableEq

/-- The context with nothing bound and nothing issued. -/
def Context.init : Context :=
  { cs := none, srv := [], uav := [], log := [] }

def Context.CSSetUnorderedAccessViews (ctx : Context) (start : Nat) (views : List (Option Buf)) :
    Context :=
  { ctx with uav := Slots.setViews ctx.uav start views }

def Context.CSSetShaderResources (ctx : Context) (start : Nat) (views : List (Option Buf)) :
    Context :=
  { ctx with srv := Slots.setViews ctx.srv start views }

def Context.CSSetShader (ctx : Context) (shader : Nat) : Context :=
  { ctx with cs := some shader }

def Context.Dispatch (ctx : Context) (groups : Nat × Nat × Nat) : Context :=
  { ctx with log := ctx.log ++ [{ shader := ctx.cs, groups := groups, srv := ctx.srv, uav := ctx.uav }] }

/-! ## Poisson3D -/

structure Poisson3D where
  m_pSrcKnown : Option Buf
  m_pDstUnknown : Option Buf
  m_pSrcUnknown : Option Buf
  m_vThreadGroupSize : Nat × Nat × Nat
  m_uCSIteration : Nat
  m_uCSTemporal : Nat
  m_uCSDiv : Nat
  m_uUASlot : Nat
  m_uSRField : Nat
  m_uSmpLinearClamp : Nat
  deriving DecidableEq

/-- The constructor `Poisson3D::Poisson3D`.  It leaves `m_vThreadGroupSize` uninitialised; the
embedding starts it at zero. -/
def Poisson3D.new : Poisson3D :=
  { m_pSrcKnown := none, m_pDstUnknown := none, m_pSrcUnknown := none,
    m_vThreadGroupSize := (0, 0, 0),
    m_uCSIteration := 0, m_uCSTemporal := 1, m_uCSDiv := 2,
    m_uUASlot := 0, m_uSRField := 0, m_uSmpLinearClamp := 1 }

def Poisson3D.Init (cfg : SharedMacros) (p : Poisson3D) (dev : Device)
    (uWidth uHeight uDepth uStride : Nat) (format : DXGI_FORMAT) : Poisson3D × Device :=
  let uByteWidth := (uStride * uWidth * uHeight * uDepth) % 2 ^ 32
  let (srcKnown, dev) := dev.Create
    { uWidth := uWidth, uHeight := uHeight, uDepth := uDepth, format := format, zeroData := none }
  let (dstUnknown, dev) := dev.Create
    { uWidth := uWidth, uHeight := uHeight, uDepth := uDepth, format := format,
      zeroData := some uByteWidth }
  let (srcUnknown, dev) :=
    if format ≠ DXGI_FORMAT.R32_FLOAT ∧ format ≠ DXGI_FORMAT.R16_FLOAT then
      let (t, dev) := dev.Create
        { uWidth := uWidth, uHeight := uHeight, uDepth := uDepth, format := format,
          zeroData := some uByteWidth }
      (some t, dev)
    else (none, dev)
  ({ p with
      m_pSrcKnown := some srcKnown, m_pDstUnknown := some dstUnknown,
      m_pSrcUnknown := srcUnknown,
      m_vThreadGroupSize :=
        (uWidth / cfg.THREAD_BLOCK_X, uHeight / cfg.THREAD_BLOCK_Y, uDepth / cfg.THREAD_BLOCK_Z) },
    dev)

def Poisson3D.SetShaders (p : Poisson3D) (uCSIteration uCSTemporal uCSDiv : Nat) : Poisson3D :=
  { p with m_uCSIteration := uCSIteration, m_uCSTemporal := uCSTemporal, m_uCSDiv := uCSDiv }

def Poisson3D.SwapBuffers (p : Poisson3D) (bUnknown : Bool) : Poisson3D :=
  if bUnknown then
    { p with m_pSrcUnknown := p.m_pDstUnknown, m_pDstUnknown := p.m_pSrcUnknown }
  else
    { p with m_pSrcKnown := p.m_pDstUnknown, m_pDstUnknown := p.m_pSrcKnown }

/-- Modelled from the spec: the default argument of `SwapBuffers`, declared in `Poisson3D.h`
(absent).  The spec has the solver swap the current and next roles after a stage, which is the
pair `SwapBuffers(false)` exchanges. -/
def Poisson3D.bUnknownDefault : Bool := false

/-- Modelled from the spec: `Poisson3D::SwapTextures`, which `Fluid3D.cpp` calls and
`Poisson3D.cpp` does not define.  It is the role swap of the solver, `SwapBuffers`. -/
def Poisson3D.SwapTextures (p : Poisson3D) (bUnknown : Bool) : Poisson3D :=
  p.SwapBuffers bUnknown

def Poisson3D.GetSrc (p : Poisson3D) : Option Buf := p.m_pSrcKnown

def Poisson3D.GetDst (p : Poisson3D) : Option Buf := p.m_pDstUnknown

def Poisson3D.GetTmp (p : Poisson3D) : Option Buf := p.m_pSrcUnknown

def Poisson3D.ComputeDivergence (p : Poisson3D) (ctx : Context) (srvSource : Option Buf) :
    Option (Poisson3D × Context) := do
  -- Setup
  let dst ← p.m_pDstUnknown
  let ctx := ctx.CSSetUnorderedAccessViews p.m_uUASlot [some dst]
  let ctx := ctx.CSSetShaderResources p.m_uSRField [srvSource]
  -- Compute Divergence
  let ctx := ctx.CSSetShader p.m_uCSDiv
  let ctx := ctx.Dispatch p.m_vThreadGroupSize
  -- Unset
  let ctx := ctx.CSSetShaderResources p.m_uSRField [none]
  let ctx := ctx.CSSetUnorderedAccessViews p.m_uUASlot [none]
  -- Swap buffers
  pure (p.SwapBuffers Poisson3D.bUnknownDefault, ctx)

def Poisson3D.gaussSeidel (p : Poisson3D) (ctx : Context) : Option (Poisson3D × Context) := do
  -- Setup
  let dst ← p.m_pDstUnknown
  let ctx := ctx.CSSetUnorderedAccessViews p.m_uUASlot [some dst]
  -- Iterations
  let ctx := ctx.CSSetShader p.m_uCSIteration
  let ctx := ctx.Dispatch p.m_vThreadGroupSize
  pure (p, ctx)

def Poisson3D.jacobi (p : Poisson3D) (ctx : Context) : Option (Poisson3D × Context) := do
  -- Setup
  let dst ← p.m_pDstUnknown
  let ctx := ctx.CSSetUnorderedAccessViews p.m_uUASlot [some dst]
  let src ← p.m_pSrcUnknown
  let ctx := ctx.CSSetShaderResources (p.m_uSRField + 1) [some src]
  -- Jacobi iteration
  let ctx := ctx.CSSetShader p.m_uCSIteration
  let ctx := ctx.Dispatch p.m_vThreadGroupSize
  -- Unset
  let ctx := ctx.CSSetShaderResources (p.m_uSRField + 1) [none]
  -- Swap buffers
  pure ({ p with m_pSrcUnknown := p.m_pDstUnknown, m_pDstUnknown := p.m_pSrcUnknown }, ctx)

/-- The loop `for (auto i = 0ui8; i < uIteration; ++i) jacobi();`, by the number of iterations
that remain. -/
def Poisson3D.jacobiLoop : Nat → Poisson3D → Context → Option (Poisson3D × Context)
  | 0, p, ctx => some (p, ctx)
  | n + 1, p, ctx =>
    match p.jacobi ctx with
    | some (p, ctx) => Poisson3D.jacobiLoop n p ctx
    | none => none

def Poisson3D.SolvePoisson (p : Poisson3D) (ctx : Context) (uIteration : Nat) :
    Option (Poisson3D × Context) := do
  -- Setup
  let known ← p.m_pSrcKnown
  let ctx := ctx.CSSetShaderResources p.m_uSRField [some known]
  -- Iterations
  let (p, ctx) ←
    if p.m_pSrcUnknown.isSome then p.jacobiLoop (uIteration % 256) ctx
    else p.gaussSeidel ctx
  -- Unset
  let ctx := ctx.CSSetShaderResources p.m_uSRField [none, none]
  let ctx := ctx.CSSetUnorderedAccessViews p.m_uUASlot [none]
  -- Swap buffers
  pure (p.SwapBuffers Poisson3D.bUnknownDefault, ctx)

def Poisson3D.Advect (p : Poisson3D) (ctx : Context) (srvSource : Option Buf) :
    Option (Poisson3D × Context) := do
  -- Setup
  let known ← p.m_pSrcKnown
  let dst ← p.m_pDstUnknown
  let ctx := ctx.CSSetUnorderedAccessViews p.m_uUASlot [some dst]
  let ctx := ctx.CSSetShaderResources p.m_uSRField [some known, srvSource]
  -- Compute Divergence
  let ctx := ctx.CSSetShader p.m_uCSTemporal
  let ctx := ctx.Dispatch p.m_vThreadGroupSize
  -- Unset
  let ctx := ctx.CSSetShaderResources p.m_uSRField [none, none]
  let ctx := ctx.CSSetUnorderedAccessViews p.m_uUASlot [none]
  -- Swap buffers
  pure (p.SwapBuffers Poisson3D.bUnknownDefault, ctx)

/-! ## Fluid3D -/

structure Fluid3D where
  m_pSrcVelocity : Option Buf
  m_pDstVelocity : Option Buf
  m_pSrcDensity : Option Buf
  m_pDstDensity : Option Buf
  m_pTmpDensity : Option Buf
  m_uUASlot : Nat
  m_uSRField : Nat
  m_uSmpLinearClamp : Nat
  m_vThreadGroupSize : Nat × Nat × Nat
  m_pDiffuse : Poisson3D
  m_pPressure : Poisson3D
  deriving DecidableEq

/-- The constructor `Fluid3D::Fluid3D`.  It leaves `m_vThreadGroupSize` uninitialised; the
embedding starts it at zero. -/
def Fluid3D.new (cfg : SharedMacros) : Fluid3D :=
  { m_pSrcVelocity := none, m_pDstVelocity := none,
    m_pSrcDensity := none, m_pDstDensity := none, m_pTmpDensity := none,
    m_uUASlot := 0, m_uSRField := 0, m_uSmpLinearClamp := 1,
    m_vThreadGroupSize := (0, 0, 0),
    m_pDiffuse :=
      Poisson3D.new.SetShaders cfg.g_uCSDiffuse cfg.uCSTemporalDefault cfg.uCSDivDefault,
    m_pPressure :=
      Poisson3D.new.SetShaders cfg.g_uCSPressure cfg.g_uCSTemporal cfg.g_uCSDivergence }

def Fluid3D.Init (cfg : SharedMacros) (f : Fluid3D) (dev : Device) (uWidth uHeight uDepth : Nat) :
    Fluid3D × Device :=
  -- Create 3D textures
  let (srcDensity, dev) := dev.Create
    { uWidth := uWidth, uHeight := uHeight, uDepth := uDepth,
      format := DXGI_FORMAT.R16_FLOAT, zeroData := none }
  let (dstDensity, dev) := dev.Create
    { uWidth := uWidth, uHeight := uHeight, uDepth := uDepth,
      format := DXGI_FORMAT.R16_FLOAT, zeroData := none }
  let (tmpDensity, dev) :=
    if cfg.MACCORMACK then
      let (t, dev) := dev.Create
        { uWidth := uWidth, uHeight := uHeight, uDepth := uDepth,
          format := DXGI_FORMAT.R16_FLOAT, zeroData := none }
      (some t, dev)
    else (f.m_pTmpDensity, dev)
  let (diffuse, dev) :=
    f.m_pDiffuse.Init cfg dev uWidth uHeight uDepth 8 DXGI_FORMAT.R16G16B16A16_FLOAT
  let (pressure, dev) :=
    f.m_pPressure.Init cfg dev uWidth uHeight uDepth 4 DXGI_FORMAT.R32_FLOAT
  ({ f with
      m_pSrcDensity := some srcDensity, m_pDstDensity := some dstDensity,
      m_pTmpDensity := tmpDensity,
      m_pDiffuse := diffuse, m_pPressure := pressure,
      m_pSrcVelocity := diffuse.GetSrc, m_pDstVelocity := diffuse.GetDst,
      m_vThreadGroupSize :=
        (uWidth / cfg.THREAD_BLOCK_X, uHeight / cfg.THREAD_BLOCK_Y, uDepth / cfg.THREAD_BLOCK_Z) },
    dev)

/-- The three statements `m_pDiffuse->SwapTextures(); m_pSrcVelocity = m_pDiffuse->GetSrc();
m_pDstVelocity = m_pDiffuse->GetDst();` that end every velocity pass. -/
def Fluid3D.swapVelocity (f : Fluid3D) : Fluid3D :=
  let diffuse := f.m_pDiffuse.SwapTextures Poisson3D.bUnknownDefault
  { f with
    m_pDiffuse := diffuse, m_pSrcVelocity := diffuse.GetSrc, m_pDstVelocity := diffuse.GetDst }

/-- The overload `Fluid3D::advect(fDeltaTime, pSRVVelocity)`. -/
def Fluid3D.advectWith (cfg : SharedMacros) (f : Fluid3D) (ctx : Context)
    (pSRVVelocity : Option Buf) : Option (Fluid3D × Context) := do
  -- Setup
  let dstVelocity ← f.m_pDstVelocity
  let dstDensity ← f.m_pDstDensity
  let srcVelocity ← f.m_pSrcVelocity
  let srcDensity ← f.m_pSrcDensity
  let ctx := ctx.CSSetUnorderedAccessViews f.m_uUASlot [some dstVelocity, some dstDensity]
  let ctx := ctx.CSSetShaderResources f.m_uSRField
    [some srcVelocity, some srcDensity, pSRVVelocity]
  -- Advect velocity and density
  let ctx := ctx.CSSetShader cfg.g_uCSAdvect
  let ctx := ctx.Dispatch f.m_vThreadGroupSize
  -- Unset
  let ctx := ctx.CSSetShaderResources f.m_uSRField [none, none, none]
  -- Swap buffers
  let f := f.swapVelocity
  pure ({ f with m_pSrcDensity := f.m_pDstDensity, m_pDstDensity := f.m_pSrcDensity }, ctx)

def Fluid3D.macCormack (cfg : SharedMacros) (f : Fluid3D) (ctx : Context)
    (pSRVVelocity : Option Buf) : Option (Fluid3D × Context) := do
  -- Setup
  let dstVelocity ← f.m_pDstVelocity
  let dstDensity ← f.m_pDstDensity
  let tmpDensity ← f.m_pTmpDensity
  let srcVelocity ← f.m_pSrcVelocity
  let srcDensity ← f.m_pSrcDensity
  let ctx := ctx.CSSetUnorderedAccessViews f.m_uUASlot [some dstVelocity, some dstDensity]
  let ctx := ctx.CSSetShaderResources f.m_uSRField
    [pSRVVelocity, some tmpDensity, some srcVelocity, some srcDensity]
  -- Advect velocity and density
  let ctx := ctx.CSSetShader cfg.g_uCSMacCormack
  let ctx := ctx.Dispatch f.m_vThreadGroupSize
  -- Unset
  let ctx := ctx.CSSetShaderResources f.m_uSRField [none, none, none, none]
  -- Swap buffers
  let f := f.swapVelocity
  pure ({ f with m_pSrcDensity := f.m_pDstDensity, m_pDstDensity := f.m_pSrcDensity }, ctx)

/-- The overload `Fluid3D::advect(fDeltaTime)`. -/
def Fluid3D.advect (cfg : SharedMacros) (f : Fluid3D) (ctx : Context) :
    Option (Fluid3D × Context) := do
  let pSrcVelocity ← f.m_pSrcVelocity
  let (f, ctx) ← f.advectWith cfg ctx (some pSrcVelocity)
  if cfg.MACCORMACK then
    let f := { f with m_pDiffuse := f.m_pDiffuse.SwapTextures true }
    let f := { f with m_pDstVelocity := f.m_pDiffuse.GetDst }
    let pSrcVelocity ← f.m_pDiffuse.GetTmp
    let f := { f with m_pTmpDensity := f.m_pDstDensity, m_pDstDensity := f.m_pTmpDensity }
    let (f, ctx) ← f.advectWith cfg ctx (some pSrcVelocity)
    f.macCormack cfg ctx (some pSrcVelocity)
  else
    pure (f, ctx)

def Fluid3D.diffuse (f : Fluid3D) (ctx : Context) (uIteration : Nat) :
    Option (Fluid3D × Context) :=
  if uIteration % 256 > 0 then do
    let (diffuse, ctx) ← f.m_pDiffuse.SolvePoisson ctx uIteration
    pure ({ f with
      m_pDiffuse := diffuse, m_pSrcVelocity := diffuse.GetSrc, m_pDstVelocity := diffuse.GetDst },
      ctx)
  else
    pure (f, ctx)

def Fluid3D.impulse (cfg : SharedMacros) (f : Fluid3D) (ctx : Context) :
    Option (Fluid3D × Context) := do
  -- Setup
  let dstVelocity ← f.m_pDstVelocity
  let dstDensity ← f.m_pDstDensity
  let srcVelocity ← f.m_pSrcVelocity
  let srcDensity ← f.m_pSrcDensity
  let ctx := ctx.CSSetUnorderedAccessViews f.m_uUASlot [some dstVelocity, some dstDensity]
  let ctx := ctx.CSSetShaderResources f.m_uSRField [some srcVelocity, some srcDensity]
  -- Add force and density
  let ctx := ctx.CSSetShader cfg.g_uCSImpulse
  let ctx := ctx.Dispatch f.m_vThreadGroupSize
  -- Unset
  let ctx := ctx.CSSetShaderResources f.m_uSRField [none, none]
  -- Swap buffers
  let f := f.swapVelocity
  pure ({ f with m_pSrcDensity := f.m_pDstDensity, m_pDstDensity := f.m_pSrcDensity }, ctx)

def Fluid3D.bound (cfg : SharedMacros) (f : Fluid3D) (ctx : Context) :
    Option (Fluid3D × Context) := do
  -- Setup
  let dstVelocity ← f.m_pDstVelocity
  let ctx := ctx.CSSetUnorderedAccessViews f.m_uUASlot [some dstVelocity]
  let srcVelocity ← f.m_pSrcVelocity
  let ctx := ctx.CSSetShaderResources f.m_uSRField [some srcVelocity]
  -- Compute boundary conditions
  let ctx := ctx.CSSetShader cfg.g_uCSBound
  let ctx := ctx.Dispatch f.m_vThreadGroupSize
  -- Unset
  let ctx := ctx.CSSetShaderResources f.m_uSRField [none]
  -- Swap buffers
  pure (f.swapVelocity, ctx)

/-- The block of `Fluid3D::project` under the comment `// Projection`. -/
def Fluid3D.projection (cfg : SharedMacros) (f : Fluid3D) (ctx : Context) :
    Option (Fluid3D × Context) := do
  -- Setup
  let srcVelocity ← f.m_pSrcVelocity
  let pressure ← f.m_pPressure.GetSrc
  let dstVelocity ← f.m_pDstVelocity
  let ctx := ctx.CSSetUnorderedAccessViews f.m_uUASlot [some dstVelocity]
  let ctx := ctx.CSSetShaderResources f.m_uSRField [some srcVelocity, some pressure]
  -- Compute projection
  let ctx := ctx.CSSetShader cfg.g_uCSProject
  let ctx := ctx.Dispatch f.m_vThreadGroupSize
  -- Unset
  let ctx := ctx.CSSetShaderResources f.m_uSRField [none, none]
  -- Swap buffers
  pure (f.swapVelocity, ctx)

def Fluid3D.project (cfg : SharedMacros) (f : Fluid3D) (ctx : Context) :
    Option (Fluid3D × Context) := do
  let srcVelocity ← f.m_pSrcVelocity
  let (pressure, ctx) ← f.m_pPressure.ComputeDivergence ctx (some srcVelocity)
  let (pressure, ctx) ← pressure.SolvePoisson ctx cfg.uIterationDefault
  let f := { f with m_pPressure := pressure }
  let (f, ctx) ← f.bound cfg ctx
  let (f, ctx) ← f.projection cfg ctx
  let (f, ctx) ← f.bound cfg ctx
  if cfg.ADVECT_PRESSURE then do
    -- Temporal optimization
    let srcVelocity ← f.m_pSrcVelocity
    let (pressure, ctx) ← f.m_pPressure.Advect ctx (some srcVelocity)
    pure ({ f with m_pPressure := pressure }, ctx)
  else
    pure (f, ctx)

def Fluid3D.Simulate (cfg : SharedMacros) (f : Fluid3D) (ctx : Context) (uItVisc : Nat) :
    Option (Fluid3D × Context) := do
  let (f, ctx) ← f.advect cfg ctx
  let (f, ctx) ← f.diffuse ctx uItVisc
  let (f, ctx) ← f.impulse cfg ctx
  let (f, ctx) ← f.project cfg ctx
  pure (f, ctx.CSSetUnorderedAccessViews f.m_uUASlot [none, none])

/-- The compute pass of `Fluid3D::Render`; `pUAVSwapChain` is the view of the swap chain, null or
the view of a buffer, and `width`, `height` are the extents of the description of its resource.
The function first calls `pUAVSwapChain->GetResource`, so it has no result on a null view. -/
def Fluid3D.Render (cfg : SharedMacros) (f : Fluid3D) (ctx : Context)
    (pUAVSwapChain : Option Buf) (width height : Nat) : Option Context := do
  let swapChain ← pUAVSwapChain
  -- Setup
  let ctx := ctx.CSSetUnorderedAccessViews f.m_uUASlot [some swapChain]
  let srcDensity ← f.m_pSrcDensity
  let ctx := ctx.CSSetShaderResources f.m_uSRField [some srcDensity]
  let ctx := ctx.CSSetShader cfg.g_uCSRayCast
  let ctx := ctx.Dispatch (width / 32, height / 16, 1)
  -- Unset
  let ctx := ctx.CSSetShaderResources f.m_uSRField [none]
  pure (ctx.CSSetUnorderedAccessViews f.m_uUASlot [none])

/-- A sequence of `Simulate` calls, one per viscosity iteration count of the list. -/
def Fluid3D.simulateMany (cfg : SharedMacros) :
    List Nat → Fluid3D → Context → Option (Fluid3D × Context)
  | [], f, ctx => some (f, ctx)
  | n :: ns, f, ctx =>
    match f.Simulate cfg ctx n with
    | some (f, ctx) => Fluid3D.simulateMany cfg ns f ctx
    | none => none

/-- Construction and `Init` on a device holding the textures `dev`, then the `Simulate` calls of
`its` on a context with nothing bound. -/
def Fluid3D.run (cfg : SharedMacros) (dev : Device) (uWidth uHeight uDepth : Nat)
    (its : List Nat) : Option (Fluid3D × Context) :=
  Fluid3D.simulateMany cfg its ((Fluid3D.new cfg).Init cfg dev uWidth uHeight uDepth).1
    Context.init

/-- One valuation of the header constants, for statements about a concrete build: work groups of
8 x 8 x 8 cells, consecutive shader indices, neither `_MACCORMACK_` nor `_ADVECT_PRESSURE_`
defined. -/
def defaultBuild : SharedMacros :=
  { THREAD_BLOCK_X := 8, THREAD_BLOCK_Y := 8, THREAD_BLOCK_Z := 8,
    g_uCSAdvect := 0, g_uCSMacCormack := 1, g_uCSDiffuse := 2, g_uCSImpulse := 3,
    g_uCSDivergence := 4, g_uCSPressure := 5, g_uCSTemporal := 6, g_uCSProject := 7,
    g_uCSBound := 8, g_uCSRayCast := 9,
    uCSTemporalDefault := 1, uCSDivDefault := 2, uIterationDefault := 1,
    MACCORMACK := false, ADVECT_PRESSURE := false }

/-- The view bound to slot `i`, if any. -/
def Slots.view (s : Slots) (i : Nat) : Option Buf := List.lookup i s

/-- The public operations of a solver after `Init`. -/
inductive Poisson3D.Op
  | SetShaders (uCSIteration uCSTemporal uCSDiv : Nat)
  | ComputeDivergence (srvSource : Option Buf)
  | SolvePoisson (uIteration : Nat)
  | Advect (srvSource : Option Buf)
  | SwapBuffers (bUnknown : Bool)
  deriving DecidableEq

/-- One operation on a solver and the context. -/
def Poisson3D.step (p : Poisson3D) (ctx : Context) : Poisson3D.Op → Option (Poisson3D × Context)
  | .SetShaders a b c => some (p.SetShaders a b c, ctx)
  | .ComputeDivergence src => p.ComputeDivergence ctx src
  | .SolvePoisson n => p.SolvePoisson ctx n
  | .Advect src => p.Advect ctx src
  | .SwapBuffers b => some (p.SwapBuffers b, ctx)

/-- A sequence of operations, in order. -/
def Poisson3D.steps : List Poisson3D.Op → Poisson3D → Context → Option (Poisson3D × Context)
  | [], p, ctx => some (p, ctx)
  | op :: ops, p, ctx =>
    match p.step ctx op with
    | some (p, ctx) => Poisson3D.steps ops p ctx
    | none => none

/-! ## Role assignments

The states the program reaches are described by which buffer plays which role.  The definitions
of this section are only used to state and prove the theorems. -/

/-- A solver whose handles are `k` (known), `d` (unknown, written next) and `u` (second unknown
buffer, when there is one), with the slots the constructor assigns. -/
def Poisson3D.ofRoles (g : Nat × Nat × Nat) (it tm dv : Nat) (k d : Buf) (u : Option Buf) : Poisson3D :=
  { m_pSrcKnown := some k, m_pDstUnknown := some d, m_pSrcUnknown := u,
    m_vThreadGroupSize := g, m_uCSIteration := it, m_uCSTemporal := tm, m_uCSDiv := dv,
    m_uUASlot := 0, m_uSRField := 0, m_uSmpLinearClamp := 1 }

/-- The pipeline whose velocity roles are `vk` (current), `vd` (next), `vu` (auxiliary), whose
density roles are `ds` (current), `dd` (next), `dt` (temporary), and whose pressure solver holds
`pk` and `pd`. -/
def Fluid3D.ofRoles (cfg : SharedMacros) (g : Nat × Nat × Nat) (vk vd vu ds dd : Buf) (dt : Option Buf)
    (pk pd : Buf) : Fluid3D :=
  { m_pSrcVelocity := some vk, m_pDstVelocity := some vd,
    m_pSrcDensity := some ds, m_pDstDensity := some dd, m_pTmpDensity := dt,
    m_uUASlot := 0, m_uSRField := 0, m_uSmpLinearClamp := 1,
    m_vThreadGroupSize := g,
    m_pDiffuse := Poisson3D.ofRoles g cfg.g_uCSDiffuse cfg.uCSTemporalDefault cfg.uCSDivDefault vk vd (some vu),
    m_pPressure := Poisson3D.ofRoles g cfg.g_uCSPressure cfg.g_uCSTemporal cfg.g_uCSDivergence pk pd none }

/-- The dispatches of `impulse` and `project` when the velocity roles on entry are
current `a`, next `b`, the density roles current `e`, next `f`, and the pressure solver holds
`pk` as known and `pd` as unknown. -/
def tailRecs (cfg : SharedMacros) (g : Nat × Nat × Nat) (a b e f pk pd : Buf) : List Dispatch :=
  [{ shader := some cfg.g_uCSImpulse, groups := g, srv := [(0, a), (1, e)], uav := [(0, b), (1, f)] },
   { shader := some cfg.g_uCSDivergence, groups := g, srv := [(0, b)], uav := [(0, pd), (1, f)] },
   { shader := some cfg.g_uCSPressure, groups := g, srv := [(0, pd)], uav := [(0, pk), (1, f)] },
   { shader := some cfg.g_uCSBound, groups := g, srv := [(0, b)], uav := [(0, a), (1, f)] },
   { shader := some cfg.g_uCSProject, groups := g, srv := [(0, a), (1, pk)], uav := [(0, b), (1, f)] },
   { shader := some cfg.g_uCSBound, groups := g, srv := [(0, b)], uav := [(0, a), (1, f)] }] ++
  (if cfg.ADVECT_PRESSURE then
    [{ shader := some cfg.g_uCSTemporal, groups := g, srv := [(0, pk), (1, a)],
       uav := [(0, pd), (1, f)] }]
   else [])

/-- Number of density textures `Fluid3D::Init` creates. -/
def densityCount (cfg : SharedMacros) : Nat := if cfg.MACCORMACK then 3 else 2

/-- The textures `Fluid3D::Init` creates, in creation order: the density textures, the three
velocity textures of the diffusion solver, the two textures of the pressure solver. -/
def initTextures (cfg : SharedMacros) (uWidth uHeight uDepth : Nat) : List Texture3D :=
  [{ uWidth := uWidth, uHeight := uHeight, uDepth := uDepth,
     format := DXGI_FORMAT.R16_FLOAT, zeroData := none },
   { uWidth := uWidth, uHeight := uHeight, uDepth := uDepth,
     format := DXGI_FORMAT.R16_FLOAT, zeroData := none }] ++
  (if cfg.MACCORMACK then
    [{ uWidth := uWidth, uHeight := uHeight, uDepth := uDepth,
       format := DXGI_FORMAT.R16_FLOAT, zeroData := none }]
   else []) ++
  [{ uWidth := uWidth, uHeight := uHeight, uDepth := uDepth,
     format := DXGI_FORMAT.R16G16B16A16_FLOAT, zeroData := none },
   { uWidth := uWidth, uHeight := uHeight, uDepth := uDepth,
     format := DXGI_FORMAT.R16G16B16A16_FLOAT,
     zeroData := some ((8 * uWidth * uHeight * uDepth) % 2 ^ 32) },
   { uWidth := uWidth, uHeight := uHeight, uDepth := uDepth,
     format := DXGI_FORMAT.R16G16B16A16_FLOAT,
     zeroData := some ((8 * uWidth * uHeight * uDepth) % 2 ^ 32) },
   { uWidth := uWidth, uHeight := uHeight, uDepth := uDepth,
     format := DXGI_FORMAT.R32_FLOAT, zeroData := none },
   { uWidth := uWidth, uHeight := uHeight, uDepth := uDepth,
     format := DXGI_FORMAT.R32_FLOAT,
     zeroData := some ((4 * uWidth * uHeight * uDepth) % 2 ^ 32) }]

/-! ## Auxiliary lemmas -/

theorem Slots.view_bind (s : Slots) (i : Nat) (b : Buf) : Slots.view (Slots.bind s i b) i = some b := by
  induction s with
  | nil => simp [Slots.bind, Slots.view, List.lookup]
  | cons hd tl ih =>
    obtain ⟨j, c⟩ := hd
    unfold Slots.bind
    by_cases h1 : i < j
    · simp [h1, Slots.view, List.lookup]
    · by_cases h2 : i = j
      · simp [h1, h2, Slots.view, List.lookup]
      · have h3 : (i == j) = false := by simpa using h2
        simp only [h1, h2, if_false, Slots.view, List.lookup, h3]
        exact ih

theorem Slots.view_unbind (s : Slots) (i : Nat) : Slots.view (Slots.unbind s i) i = none := by
  induction s with
  | nil => simp [Slots.unbind, Slots.view, List.lookup]
  | cons hd tl ih =>
    obtain ⟨j, c⟩ := hd
    by_cases h : j = i
    · subst h
      simpa [Slots.unbind, Slots.view, List.filter] using ih
    · have h3 : (i == j) = false := by simpa using (Ne.symm h)
      have h4 : (j != i) = true := by simpa using h
      simp only [Slots.unbind, Slots.view, List.filter, h4, List.lookup, h3]
      exact ih

theorem Slots.view_set (s : Slots) (i : Nat) (v : Option Buf) : Slots.view (Slots.set s i v) i = v := by
  cases v with
  | none => exact Slots.view_unbind s i
  | some b => exact Slots.view_bind s i b

theorem ComputeDivergence_eq (p : Poisson3D) (ctx : Context) (src : Option Buf) (d : Buf)
    (hd : p.m_pDstUnknown = some d) :
    p.ComputeDivergence ctx src = some (p.SwapBuffers false,
      { cs := some p.m_uCSDiv,
        srv := Slots.unbind (Slots.set ctx.srv p.m_uSRField src) p.m_uSRField,
        uav := Slots.unbind (Slots.bind ctx.uav p.m_uUASlot d) p.m_uUASlot,
        log := ctx.log ++ [{ shader := some p.m_uCSDiv, groups := p.m_vThreadGroupSize,
                             srv := Slots.set ctx.srv p.m_uSRField src,
                             uav := Slots.bind ctx.uav p.m_uUASlot d }] }) := by
  simp [Poisson3D.ComputeDivergence, hd, Context.CSSetUnorderedAccessViews, Context.CSSetShaderResources,
    Context.CSSetShader, Context.Dispatch, Slots.setViews, Slots.set, Poisson3D.bUnknownDefault]

theorem jacobi_roles (g : Nat × Nat × Nat) (it tm dv : Nat) (k d u x y : Buf) (cs : Option Nat)
    (log : List Dispatch) :
    (Poisson3D.ofRoles g it tm dv k d (some u)).jacobi
        { cs := cs, srv := [(0, k)], uav := [(0, x), (1, y)], log := log } =
      some (Poisson3D.ofRoles g it tm dv k u (some d),
        { cs := some it, srv := [(0, k)], uav := [(0, d), (1, y)],
          log := log ++ [{ shader := some it, groups := g, srv := [(0, k), (1, u)],
                           uav := [(0, d), (1, y)] }] }) := by
  simp [Poisson3D.jacobi, Poisson3D.ofRoles, Context.CSSetUnorderedAccessViews,
    Context.CSSetShaderResources, Context.CSSetShader, Context.Dispatch, Slots.setViews, Slots.set,
    Slots.bind, Slots.unbind]

theorem jacobiLoop_roles (g : Nat × Nat × Nat) (it tm dv : Nat) (k y : Buf) (n : Nat) :
    ∀ (d u x : Buf) (cs : Option Nat) (log : List Dispatch),
    ∃ d' u' x' cs' recs,
      (Poisson3D.ofRoles g it tm dv k d (some u)).jacobiLoop n
          { cs := cs, srv := [(0, k)], uav := [(0, x), (1, y)], log := log } =
        some (Poisson3D.ofRoles g it tm dv k d' (some u'),
          { cs := cs', srv := [(0, k)], uav := [(0, x'), (1, y)], log := log ++ recs }) ∧
      ((d' = d ∧ u' = u) ∨ (d' = u ∧ u' = d)) ∧
      recs.length = n ∧
      ∀ r ∈ recs, r.shader = some it ∧ r.groups = g ∧
        ((r.srv = [(0, k), (1, u)] ∧ r.uav = [(0, d), (1, y)]) ∨
         (r.srv = [(0, k), (1, d)] ∧ r.uav = [(0, u), (1, y)])) := by
  induction n with
  | zero =>
    intro d u x cs log
    exact ⟨d, u, x, cs, [], by simp [Poisson3D.jacobiLoop], Or.inl ⟨rfl, rfl⟩, rfl, by simp⟩
  | succ n ih =>
    intro d u x cs log
    obtain ⟨d', u', x', cs', recs, heq, hperm, hlen, hrec⟩ := ih u d d (some it)
      (log ++ [{ shader := some it, groups := g, srv := [(0, k), (1, u)], uav := [(0, d), (1, y)] }])
    refine ⟨d', u', x', cs',
      { shader := some it, groups := g, srv := [(0, k), (1, u)], uav := [(0, d), (1, y)] } :: recs,
      ?_, ?_, by simp [hlen], ?_⟩
    · simp only [Poisson3D.jacobiLoop, jacobi_roles, heq, List.append_assoc, List.singleton_append]
    · rcases hperm with ⟨h1, h2⟩ | ⟨h1, h2⟩
      · exact Or.inr ⟨h1, h2⟩
      · exact Or.inl ⟨h1, h2⟩
    · intro r hr
      rcases List.mem_cons.1 hr with rfl | hr
      · exact ⟨rfl, rfl, Or.inl ⟨rfl, rfl⟩⟩
      · obtain ⟨h1, h2, h3⟩ := hrec r hr
        exact ⟨h1, h2, h3.symm⟩

theorem impulse_roles (cfg : SharedMacros) (g : Nat × Nat × Nat) (a b c e f : Buf) (dt : Option Buf)
    (pk pd : Buf) (cs : Option Nat) (uav : Slots) (log : List Dispatch) (x y : Buf)
    (huav : uav = [(0, x), (1, y)] ∨ uav = [(1, y)]) :
    (Fluid3D.ofRoles cfg g a b c e f dt pk pd).impulse cfg
        { cs := cs, srv := [], uav := uav, log := log } =
      some (Fluid3D.ofRoles cfg g b a c f e dt pk pd,
        { cs := some cfg.g_uCSImpulse, srv := [], uav := [(0, b), (1, f)],
          log := log ++ [{ shader := some cfg.g_uCSImpulse, groups := g,
                           srv := [(0, a), (1, e)], uav := [(0, b), (1, f)] }] }) := by
  rcases huav with rfl | rfl <;>
  simp [Fluid3D.impulse, Fluid3D.ofRoles, Fluid3D.swapVelocity, Poisson3D.SwapTextures,
    Poisson3D.SwapBuffers, Poisson3D.bUnknownDefault, Poisson3D.GetSrc, Poisson3D.GetDst,
    Poisson3D.ofRoles, Context.CSSetUnorderedAccessViews,
    Context.CSSetShaderResources, Context.CSSetShader, Context.Dispatch, Slots.setViews, Slots.set,
    Slots.bind, Slots.unbind]

theorem project_roles (cfg : SharedMacros) (g : Nat × Nat × Nat) (a b c e f : Buf) (dt : Option Buf)
    (pk pd : Buf) (cs : Option Nat) (log : List Dispatch) (x y : Buf) :
    (Fluid3D.ofRoles cfg g a b c e f dt pk pd).project cfg
        { cs := cs, srv := [], uav := [(0, x), (1, y)], log := log } =
      some (Fluid3D.ofRoles cfg g b a c e f dt
              (if cfg.ADVECT_PRESSURE then pd else pk) (if cfg.ADVECT_PRESSURE then pk else pd),
        { cs := some (if cfg.ADVECT_PRESSURE then cfg.g_uCSTemporal else cfg.g_uCSBound),
          srv := [], uav := if cfg.ADVECT_PRESSURE then [(1, y)] else [(0, b), (1, y)],
          log := log ++
            [{ shader := some cfg.g_uCSDivergence, groups := g,
               srv := [(0, a)], uav := [(0, pd), (1, y)] },
             { shader := some cfg.g_uCSPressure, groups := g,
               srv := [(0, pd)], uav := [(0, pk), (1, y)] },
             { shader := some cfg.g_uCSBound, groups := g,
               srv := [(0, a)], uav := [(0, b), (1, y)] },
             { shader := some cfg.g_uCSProject, groups := g,
               srv := [(0, b), (1, pk)], uav := [(0, a), (1, y)] },
             { shader := some cfg.g_uCSBound, groups := g,
               srv := [(0, a)], uav := [(0, b), (1, y)] }] ++
            (if cfg.ADVECT_PRESSURE then
              [{ shader := some cfg.g_uCSTemporal, groups := g,
                 srv := [(0, pk), (1, b)], uav := [(0, pd), (1, y)] }]
             else []) }) := by
  cases h : cfg.ADVECT_PRESSURE <;>
  simp [Fluid3D.project, Fluid3D.bound, Fluid3D.projection, Fluid3D.ofRoles, Fluid3D.swapVelocity,
    Poisson3D.SwapTextures, Poisson3D.ComputeDivergence, Poisson3D.SolvePoisson, Poisson3D.gaussSeidel,
    Poisson3D.Advect,
    Poisson3D.SwapBuffers, Poisson3D.bUnknownDefault, Poisson3D.GetSrc, Poisson3D.GetDst,
    Poisson3D.ofRoles, Context.CSSetUnorderedAccessViews,
    Context.CSSetShaderResources, Context.CSSetShader, Context.Dispatch, Slots.setViews, Slots.set,
    Slots.bind, Slots.unbind, h]

theorem advect_roles_plain (cfg : SharedMacros) (g : Nat × Nat × Nat) (vk vd vu ds dd : Buf)
    (dt : Option Buf) (pk pd : Buf) (cs : Option Nat) (log : List Dispatch)
    (hmac : cfg.MACCORMACK = false) :
    (Fluid3D.ofRoles cfg g vk vd vu ds dd dt pk pd).advect cfg
        { cs := cs, srv := [], uav := [], log := log } =
      some (Fluid3D.ofRoles cfg g vd vk vu dd ds dt pk pd,
        { cs := some cfg.g_uCSAdvect, srv := [], uav := [(0, vd), (1, dd)],
          log := log ++ [{ shader := some cfg.g_uCSAdvect, groups := g,
                           srv := [(0, vk), (1, ds), (2, vk)], uav := [(0, vd), (1, dd)] }] }) := by
  simp [Fluid3D.advect, Fluid3D.advectWith, Fluid3D.ofRoles, Fluid3D.swapVelocity,
    Poisson3D.SwapTextures,
    Poisson3D.SwapBuffers, Poisson3D.bUnknownDefault, Poisson3D.GetSrc, Poisson3D.GetDst,
    Poisson3D.ofRoles, Context.CSSetUnorderedAccessViews,
    Context.CSSetShaderResources, Context.CSSetShader, Context.Dispatch, Slots.setViews, Slots.set,
    Slots.bind, Slots.unbind, hmac]

theorem advect_roles_macCormack (cfg : SharedMacros) (g : Nat × Nat × Nat) (vk vd vu ds dd t : Buf)
    (pk pd : Buf) (cs : Option Nat) (log : List Dispatch)
    (hmac : cfg.MACCORMACK = true) :
    (Fluid3D.ofRoles cfg g vk vd vu ds dd (some t) pk pd).advect cfg
        { cs := cs, srv := [], uav := [], log := log } =
      some (Fluid3D.ofRoles cfg g vd vu vk dd t (some ds) pk pd,
        { cs := some cfg.g_uCSMacCormack, srv := [], uav := [(0, vd), (1, dd)],
          log := log ++
            [{ shader := some cfg.g_uCSAdvect, groups := g,
               srv := [(0, vk), (1, ds), (2, vk)], uav := [(0, vd), (1, dd)] },
             { shader := some cfg.g_uCSAdvect, groups := g,
               srv := [(0, vd), (1, dd), (2, vk)], uav := [(0, vu), (1, t)] },
             { shader := some cfg.g_uCSMacCormack, groups := g,
               srv := [(0, vk), (1, ds), (2, vu), (3, t)], uav := [(0, vd), (1, dd)] }] }) := by
  simp [Fluid3D.advect, Fluid3D.advectWith, Fluid3D.macCormack, Fluid3D.ofRoles, Fluid3D.swapVelocity,
    Poisson3D.SwapTextures, Poisson3D.GetTmp,
    Poisson3D.SwapBuffers, Poisson3D.bUnknownDefault, Poisson3D.GetSrc, Poisson3D.GetDst,
    Poisson3D.ofRoles, Context.CSSetUnorderedAccessViews,
    Context.CSSetShaderResources, Context.CSSetShader, Context.Dispatch, Slots.setViews, Slots.set,
    Slots.bind, Slots.unbind, hmac]

theorem diffuse_roles (cfg : SharedMacros) (g : Nat × Nat × Nat) (a b c e f : Buf) (dt : Option Buf)
    (pk pd : Buf) (cs : Option Nat) (log : List Dispatch) (x y : Buf) (n : Nat) :
    ∃ a' b' c' cs' uav' recs,
      (Fluid3D.ofRoles cfg g a b c e f dt pk pd).diffuse
          { cs := cs, srv := [], uav := [(0, x), (1, y)], log := log } n =
        some (Fluid3D.ofRoles cfg g a' b' c' e f dt pk pd,
          { cs := cs', srv := [], uav := uav', log := log ++ recs }) ∧
      (uav' = [(0, x), (1, y)] ∨ uav' = [(1, y)]) ∧
      ((n % 256 = 0 ∧ a' = a ∧ b' = b ∧ c' = c) ∨ (a' = b ∧ b' = a ∧ c' = c) ∨
        (a' = c ∧ b' = a ∧ c' = b)) ∧
      recs.length = n % 256 ∧
      ∀ r ∈ recs, r.shader = some cfg.g_uCSDiffuse ∧ r.groups = g ∧
        ((r.srv = [(0, a), (1, c)] ∧ r.uav = [(0, b), (1, y)]) ∨
         (r.srv = [(0, a), (1, b)] ∧ r.uav = [(0, c), (1, y)])) := by
  by_cases hn : n % 256 = 0
  · exact ⟨a, b, c, cs, _, [], by simp [Fluid3D.diffuse, hn], Or.inl rfl, Or.inl ⟨hn, rfl, rfl, rfl⟩,
      by simp [hn], by simp⟩
  · obtain ⟨d', u', x', cs', recs, heq, hperm, hlen, hrec⟩ :=
      jacobiLoop_roles g cfg.g_uCSDiffuse cfg.uCSTemporalDefault cfg.uCSDivDefault a y (n % 256)
        b c x cs log
    refine ⟨d', a, u', cs', [(1, y)], recs, ?_, Or.inr rfl, ?_, hlen, hrec⟩
    · have hpos : n % 256 > 0 := Nat.pos_of_ne_zero hn
      have heq' := heq
      simp only [Poisson3D.ofRoles] at heq'
      simp [Fluid3D.diffuse, hpos, Fluid3D.ofRoles, Poisson3D.SolvePoisson, Poisson3D.ofRoles,
        Context.CSSetUnorderedAccessViews, Context.CSSetShaderResources, Slots.setViews, Slots.set,
        Slots.bind, Slots.unbind, heq', Poisson3D.SwapBuffers, Poisson3D.bUnknownDefault,
        Poisson3D.GetSrc, Poisson3D.GetDst]
    · rcases hperm with ⟨h1, h2⟩ | ⟨h1, h2⟩
      · exact Or.inr (Or.inl ⟨h1, rfl, h2⟩)
      · exact Or.inr (Or.inr ⟨h1, rfl, h2⟩)

theorem tail_roles (cfg : SharedMacros) (g : Nat × Nat × Nat) (a b c e f : Buf) (dt : Option Buf)
    (pk pd : Buf) (cs : Option Nat) (uav : Slots) (log : List Dispatch) (x y : Buf)
    (huav : uav = [(0, x), (1, y)] ∨ uav = [(1, y)]) :
    ((Fluid3D.ofRoles cfg g a b c e f dt pk pd).impulse cfg
        { cs := cs, srv := [], uav := uav, log := log }).bind
      (fun r => (r.1.project cfg r.2).bind
        (fun r => some (r.1, r.2.CSSetUnorderedAccessViews r.1.m_uUASlot [none, none]))) =
      some (Fluid3D.ofRoles cfg g a b c f e dt
              (if cfg.ADVECT_PRESSURE then pd else pk) (if cfg.ADVECT_PRESSURE then pk else pd),
        { cs := some (if cfg.ADVECT_PRESSURE then cfg.g_uCSTemporal else cfg.g_uCSBound),
          srv := [], uav := [],
          log := log ++ tailRecs cfg g a b e f pk pd }) := by
  rw [impulse_roles cfg g a b c e f dt pk pd cs uav log x y huav]
  simp only [Option.bind, project_roles]
  cases h : cfg.ADVECT_PRESSURE <;>
  simp [Context.CSSetUnorderedAccessViews, Slots.setViews, Slots.set, Slots.unbind, tailRecs, h,
    Fluid3D.ofRoles]

theorem Simulate_eq (cfg : SharedMacros) (f : Fluid3D) (ctx : Context) (n : Nat) :
    f.Simulate cfg ctx n =
      (f.advect cfg ctx).bind (fun r => (r.1.diffuse r.2 n).bind (fun r =>
        (r.1.impulse cfg r.2).bind (fun r => (r.1.project cfg r.2).bind
          (fun r => some (r.1, r.2.CSSetUnorderedAccessViews r.1.m_uUASlot [none, none]))))) := by
  simp only [Fluid3D.Simulate, bind, pure]

theorem roles_ne (a b c e f pk pd : Buf) (l : List Buf)
    (h : (a :: b :: c :: e :: f :: pk :: pd :: l).Nodup) :
    (a ≠ b ∧ a ≠ c ∧ a ≠ e ∧ a ≠ f ∧ a ≠ pk ∧ a ≠ pd) ∧ (b ≠ c ∧ b ≠ e ∧ b ≠ f ∧ b ≠ pk ∧ b ≠ pd) ∧
    (c ≠ e ∧ c ≠ f ∧ c ≠ pk ∧ c ≠ pd) ∧ (e ≠ f ∧ e ≠ pk ∧ e ≠ pd) ∧ (f ≠ pk ∧ f ≠ pd) ∧ pk ≠ pd := by
  simp only [List.nodup_cons, List.mem_cons, not_or] at h
  obtain ⟨⟨h1, h2, h3, h4, h5, h6, -⟩, ⟨h7, h8, h9, h10, h11, -⟩, ⟨h12, h13, h14, h15, -⟩,
    ⟨h16, h17, h18, -⟩, ⟨h19, h20, -⟩, ⟨h21, -⟩, -⟩ := h
  exact ⟨⟨h1, h2, h3, h4, h5, h6⟩, ⟨h7, h8, h9, h10, h11⟩, ⟨h12, h13, h14, h15⟩, ⟨h16, h17, h18⟩,
    ⟨h19, h20⟩, h21⟩

theorem nodup_mac (vk vd vu ds dd pk pd t : Buf)
    (h : (vk :: vd :: vu :: ds :: dd :: pk :: pd :: (some t).toList).Nodup) :
    (vd :: vu :: vk :: dd :: t :: pk :: pd :: (some ds).toList).Nodup := by
  simp only [List.nodup_cons, List.mem_cons, not_or, Option.toList, List.mem_singleton,
    List.not_mem_nil, not_false_eq_true, List.nodup_nil, and_true] at h ⊢
  obtain ⟨⟨h1, h2, h3, h4, h5, h6, h6'⟩, ⟨h7, h8, h9, h10, h11, h11'⟩, ⟨h12, h13, h14, h15, h15'⟩,
    ⟨h16, h17, h18, h18'⟩, ⟨h19, h20, h20'⟩, ⟨h21, h21'⟩, h22⟩ := h
  repeat' constructor
  all_goals first | assumption | exact Ne.symm (by assumption)

theorem nodup_swap (a b c e f pk pd : Buf) (l : List Buf)
    (h : (a :: b :: c :: e :: f :: pk :: pd :: l).Nodup) :
    (a :: b :: c :: f :: e :: pk :: pd :: l).Nodup ∧ (b :: a :: c :: f :: e :: pk :: pd :: l).Nodup ∧
    (c :: a :: b :: f :: e :: pk :: pd :: l).Nodup ∧ (b :: a :: c :: e :: f :: pk :: pd :: l).Nodup := by
  simp only [List.nodup_cons, List.mem_cons, not_or] at h ⊢
  obtain ⟨⟨h1, h2, h3, h4, h5, h6, h6'⟩, ⟨h7, h8, h9, h10, h11, h11'⟩, ⟨h12, h13, h14, h15, h15'⟩,
    ⟨h16, h17, h18, h18'⟩, ⟨h19, h20, h20'⟩, ⟨h21, h21'⟩, h22, h23⟩ := h
  repeat' constructor
  all_goals first | assumption | exact Ne.symm (by assumption)

theorem hazardFree_of_views (r : Dispatch) (srv uav : Slots) (hsrv : r.srv = srv) (huav : r.uav = uav)
    (h : ∀ p ∈ srv, ∀ q ∈ uav, p.2 ≠ q.2) : r.hazardFree := by
  subst hsrv huav
  intro b hb hw
  simp only [Dispatch.reads, Dispatch.writes, Slots.buffers, List.mem_map] at hb hw
  obtain ⟨p, hp, rfl⟩ := hb
  obtain ⟨q, hq, hpq⟩ := hw
  exact h p hp q hq hpq.symm

theorem tailRecs_hazardFree (cfg : SharedMacros) (g : Nat × Nat × Nat) (a b c e f pk pd : Buf)
    (dt : Option Buf)
    (hnd : (a :: b :: c :: f :: e :: pk :: pd :: dt.toList).Nodup) :
    ∀ r ∈ tailRecs cfg g a b e f pk pd, r.groups = g ∧ r.hazardFree := by
  have hne := roles_ne a b c f e pk pd _ hnd
  clear hnd
  intro r hr
  cases h : cfg.ADVECT_PRESSURE
  · simp only [tailRecs, h, if_false, Bool.false_eq_true, List.mem_cons, List.mem_append,
      List.mem_singleton, List.not_mem_nil, or_false] at hr
    rcases hr with rfl | rfl | rfl | rfl | rfl | rfl <;>
    refine ⟨rfl, hazardFree_of_views _ _ _ rfl rfl ?_⟩ <;> simp <;> tauto
  · simp only [tailRecs, h, if_true, List.mem_cons, List.mem_append,
      List.mem_singleton, List.not_mem_nil, or_false] at hr
    rcases hr with (rfl | rfl | rfl | rfl | rfl | rfl) | rfl <;>
    refine ⟨rfl, hazardFree_of_views _ _ _ rfl rfl ?_⟩ <;> simp <;> tauto

theorem diffuse_tail_roles (cfg : SharedMacros) (g : Nat × Nat × Nat) (a b c e f : Buf)
    (dt : Option Buf) (pk pd : Buf) (cs : Option Nat) (log : List Dispatch) (n : Nat)
    (hnd : (a :: b :: c :: e :: f :: pk :: pd :: dt.toList).Nodup) :
    ∃ a' b' c' cs' recs,
      ((Fluid3D.ofRoles cfg g a b c e f dt pk pd).diffuse
          { cs := cs, srv := [], uav := [(0, a), (1, e)], log := log } n).bind
        (fun r => (r.1.impulse cfg r.2).bind (fun r => (r.1.project cfg r.2).bind
          (fun r => some (r.1, r.2.CSSetUnorderedAccessViews r.1.m_uUASlot [none, none])))) =
        some (Fluid3D.ofRoles cfg g a' b' c' f e dt
                (if cfg.ADVECT_PRESSURE then pd else pk) (if cfg.ADVECT_PRESSURE then pk else pd),
          { cs := cs', srv := [], uav := [],
            log := log ++ (recs ++ tailRecs cfg g a' b' e f pk pd) }) ∧
      (a' :: b' :: c' :: f :: e :: pk :: pd :: dt.toList).Nodup ∧
      recs.length = n % 256 ∧
      ∀ r ∈ recs, r.shader = some cfg.g_uCSDiffuse ∧ r.groups = g ∧ r.hazardFree := by
  have hne := roles_ne a b c e f pk pd _ hnd
  have hz1 : ∀ p ∈ [((0 : Nat), a), (1, c)], ∀ q ∈ [((0 : Nat), b), (1, e)], p.2 ≠ q.2 := by
    simp; tauto
  have hz2 : ∀ p ∈ [((0 : Nat), a), (1, b)], ∀ q ∈ [((0 : Nat), c), (1, e)], p.2 ≠ q.2 := by
    simp; tauto
  obtain ⟨hn1, hn2, hn3, -⟩ := nodup_swap a b c e f pk pd _ hnd
  clear hne hnd
  obtain ⟨a', b', c', cs', uav', recs, heq, huav, hperm, hlen, hrec⟩ :=
    diffuse_roles cfg g a b c e f dt pk pd cs log a e n
  have ht := tail_roles cfg g a' b' c' e f dt pk pd cs' uav' (log ++ recs) a e huav
  refine ⟨a', b', c', some (if cfg.ADVECT_PRESSURE then cfg.g_uCSTemporal else cfg.g_uCSBound),
    recs, ?_, ?_, hlen, ?_⟩
  · rw [heq]
    simp only [Option.bind] at ht ⊢
    rw [ht, List.append_assoc]
  · rcases hperm with ⟨-, rfl, rfl, rfl⟩ | ⟨rfl, rfl, rfl⟩ | ⟨rfl, rfl, rfl⟩
    · exact hn1
    · exact hn2
    · exact hn3
  · intro r hr
    obtain ⟨hs, hg, hb⟩ := hrec r hr
    refine ⟨hs, hg, ?_⟩
    rcases hb with ⟨hsrv, huav⟩ | ⟨hsrv, huav⟩
    · exact hazardFree_of_views r _ _ hsrv huav hz1
    · exact hazardFree_of_views r _ _ hsrv huav hz2

theorem Simulate_roles (cfg : SharedMacros) (g : Nat × Nat × Nat) (vk vd vu ds dd : Buf)
    (dt : Option Buf) (pk pd : Buf) (cs : Option Nat) (log : List Dispatch) (n : Nat)
    (hnd : (vk :: vd :: vu :: ds :: dd :: pk :: pd :: dt.toList).Nodup)
    (hmac : cfg.MACCORMACK = true → dt.isSome = true) :
    ∃ a b c e f dt' cs' pre,
      (Fluid3D.ofRoles cfg g vk vd vu ds dd dt pk pd).Simulate cfg
          { cs := cs, srv := [], uav := [], log := log } n =
        some (Fluid3D.ofRoles cfg g a b c f e dt'
                (if cfg.ADVECT_PRESSURE then pd else pk) (if cfg.ADVECT_PRESSURE then pk else pd),
          { cs := cs', srv := [], uav := [],
            log := log ++ (pre ++ tailRecs cfg g a b e f pk pd) }) ∧
      (a :: b :: c :: f :: e :: pk :: pd :: dt'.toList).Nodup ∧
      (cfg.MACCORMACK = true → dt'.isSome = true) ∧
      (∀ r ∈ pre, r.groups = g ∧ r.hazardFree) ∧
      pre.map (fun r => r.shader) =
        (if cfg.MACCORMACK then
          [some cfg.g_uCSAdvect, some cfg.g_uCSAdvect, some cfg.g_uCSMacCormack]
         else [some cfg.g_uCSAdvect]) ++ List.replicate (n % 256) (some cfg.g_uCSDiffuse) := by
  rw [Simulate_eq]
  have hmap : ∀ recs : List Dispatch, recs.length = n % 256 →
      (∀ r ∈ recs, r.shader = some cfg.g_uCSDiffuse ∧ r.groups = g ∧ r.hazardFree) →
      recs.map (fun r => r.shader) = List.replicate (n % 256) (some cfg.g_uCSDiffuse) := by
    intro recs hlen hrec
    rw [List.eq_replicate_iff]
    refine ⟨by simp [hlen], ?_⟩
    intro s hs
    obtain ⟨r, hr, rfl⟩ := List.mem_map.1 hs
    exact (hrec r hr).1
  cases hm : cfg.MACCORMACK
  · have hne := roles_ne vk vd vu ds dd pk pd _ hnd
    have hz1 : ∀ p ∈ [((0 : Nat), vk), (1, ds), (2, vk)], ∀ q ∈ [((0 : Nat), vd), (1, dd)],
        p.2 ≠ q.2 := by
      simp; tauto
    have hn1 := (nodup_swap vk vd vu ds dd pk pd _ hnd).2.1
    clear hne hnd
    rw [advect_roles_plain cfg g vk vd vu ds dd dt pk pd cs log hm]
    obtain ⟨a', b', c', cs', recs, heq, hnd2, hlen, hrec⟩ :=
      diffuse_tail_roles cfg g vd vk vu dd ds dt pk pd (some cfg.g_uCSAdvect)
        (log ++ [{ shader := some cfg.g_uCSAdvect, groups := g,
                   srv := [(0, vk), (1, ds), (2, vk)], uav := [(0, vd), (1, dd)] }]) n hn1
    refine ⟨a', b', c', dd, ds, dt, cs',
      { shader := some cfg.g_uCSAdvect, groups := g,
        srv := [(0, vk), (1, ds), (2, vk)], uav := [(0, vd), (1, dd)] } :: recs, ?_, hnd2, ?_, ?_, ?_⟩
    · simp only [Option.bind] at heq ⊢
      rw [heq]; simp
    · simp [hm]
    · intro r hr
      rcases List.mem_cons.1 hr with rfl | hr
      · exact ⟨rfl, hazardFree_of_views _ _ _ rfl rfl hz1⟩
      · exact ⟨(hrec r hr).2.1, (hrec r hr).2.2⟩
    · simp [hmap recs hlen hrec]
  · obtain ⟨t, rfl⟩ := Option.isSome_iff_exists.1 (hmac hm)
    have hnd' : (vk :: vd :: vu :: ds :: dd :: pk :: pd :: [t]).Nodup := hnd
    have hne := roles_ne vk vd vu ds dd pk pd _ hnd
    have hnt : vk ≠ t ∧ vd ≠ t ∧ vu ≠ t ∧ ds ≠ t ∧ dd ≠ t ∧ pk ≠ t ∧ pd ≠ t := by
      simp only [List.nodup_cons, List.mem_cons, not_or, List.mem_singleton] at hnd'; tauto
    have hz1 : ∀ p ∈ [((0 : Nat), vk), (1, ds), (2, vk)], ∀ q ∈ [((0 : Nat), vd), (1, dd)],
        p.2 ≠ q.2 := by
      simp; tauto
    have hz2 : ∀ p ∈ [((0 : Nat), vd), (1, dd), (2, vk)], ∀ q ∈ [((0 : Nat), vu), (1, t)],
        p.2 ≠ q.2 := by
      simp; tauto
    have hz3 : ∀ p ∈ [((0 : Nat), vk), (1, ds), (2, vu), (3, t)], ∀ q ∈ [((0 : Nat), vd), (1, dd)],
        p.2 ≠ q.2 := by
      simp; tauto
    have hn1 := nodup_mac vk vd vu ds dd pk pd t hnd
    clear hne hnd hnd' hnt
    rw [advect_roles_macCormack cfg g vk vd vu ds dd t pk pd cs log hm]
    obtain ⟨a', b', c', cs', recs, heq, hnd2, hlen, hrec⟩ :=
      diffuse_tail_roles cfg g vd vu vk dd t (some ds) pk pd (some cfg.g_uCSMacCormack)
        (log ++
            [{ shader := some cfg.g_uCSAdvect, groups := g,
               srv := [(0, vk), (1, ds), (2, vk)], uav := [(0, vd), (1, dd)] },
             { shader := some cfg.g_uCSAdvect, groups := g,
               srv := [(0, vd), (1, dd), (2, vk)], uav := [(0, vu), (1, t)] },
             { shader := some cfg.g_uCSMacCormack, groups := g,
               srv := [(0, vk), (1, ds), (2, vu), (3, t)], uav := [(0, vd), (1, dd)] }]) n hn1
    refine ⟨a', b', c', dd, t, some ds, cs',
      { shader := some cfg.g_uCSAdvect, groups := g,
        srv := [(0, vk), (1, ds), (2, vk)], uav := [(0, vd), (1, dd)] } ::
      { shader := some cfg.g_uCSAdvect, groups := g,
        srv := [(0, vd), (1, dd), (2, vk)], uav := [(0, vu), (1, t)] } ::
      { shader := some cfg.g_uCSMacCormack, groups := g,
        srv := [(0, vk), (1, ds), (2, vu), (3, t)], uav := [(0, vd), (1, dd)] } :: recs,
      ?_, hnd2, ?_, ?_, ?_⟩
    · simp only [Option.bind] at heq ⊢
      rw [heq]; simp
    · simp
    · intro r hr
      simp only [List.mem_cons] at hr
      rcases hr with rfl | rfl | rfl | hr
      · exact ⟨rfl, hazardFree_of_views _ _ _ rfl rfl hz1⟩
      · exact ⟨rfl, hazardFree_of_views _ _ _ rfl rfl hz2⟩
      · exact ⟨rfl, hazardFree_of_views _ _ _ rfl rfl hz3⟩
      · exact ⟨(hrec r hr).2.1, (hrec r hr).2.2⟩
    · simp [hmap recs hlen hrec]

theorem Init_roles (cfg : SharedMacros) (dev : Device) (w h d : Nat) :
    ((Fluid3D.new cfg).Init cfg dev w h d).1 =
      Fluid3D.ofRoles cfg (w / cfg.THREAD_BLOCK_X, h / cfg.THREAD_BLOCK_Y, d / cfg.THREAD_BLOCK_Z)
        (dev.textures.length + densityCount cfg) (dev.textures.length + densityCount cfg + 1)
        (dev.textures.length + densityCount cfg + 2)
        dev.textures.length (dev.textures.length + 1)
        (if cfg.MACCORMACK then some (dev.textures.length + 2) else none)
        (dev.textures.length + densityCount cfg + 3) (dev.textures.length + densityCount cfg + 4) := by
  cases hm : cfg.MACCORMACK <;>
  simp [Fluid3D.Init, Fluid3D.new, Poisson3D.Init, Poisson3D.new, Poisson3D.SetShaders,
    Device.Create, Fluid3D.ofRoles, Poisson3D.ofRoles, Poisson3D.GetSrc, Poisson3D.GetDst, hm,
    densityCount, Nat.add_assoc]

theorem nodup_swap_pressure (a b c e f pk pd : Buf) (l : List Buf)
    (h : (a :: b :: c :: e :: f :: pk :: pd :: l).Nodup) :
    (a :: b :: c :: e :: f :: pd :: pk :: l).Nodup := by
  simp only [List.nodup_cons, List.mem_cons, not_or] at h ⊢
  obtain ⟨⟨h1, h2, h3, h4, h5, h6, h6'⟩, ⟨h7, h8, h9, h10, h11, h11'⟩, ⟨h12, h13, h14, h15, h15'⟩,
    ⟨h16, h17, h18, h18'⟩, ⟨h19, h20, h20'⟩, ⟨h21, h21'⟩, h22, h23⟩ := h
  repeat' constructor
  all_goals first | assumption | exact Ne.symm (by assumption)

theorem simulateMany_roles (cfg : SharedMacros) (g : Nat × Nat × Nat) (its : List Nat) :
    ∀ (vk vd vu ds dd : Buf) (dt : Option Buf) (pk pd : Buf) (cs : Option Nat)
      (log : List Dispatch),
      (vk :: vd :: vu :: ds :: dd :: pk :: pd :: dt.toList).Nodup →
      (cfg.MACCORMACK = true → dt.isSome = true) →
      ∃ a b c e f dt' pk' pd' cs' recs,
        Fluid3D.simulateMany cfg its (Fluid3D.ofRoles cfg g vk vd vu ds dd dt pk pd)
            { cs := cs, srv := [], uav := [], log := log } =
          some (Fluid3D.ofRoles cfg g a b c e f dt' pk' pd',
            { cs := cs', srv := [], uav := [], log := log ++ recs }) ∧
        (a :: b :: c :: e :: f :: pk' :: pd' :: dt'.toList).Nodup ∧
        (cfg.MACCORMACK = true → dt'.isSome = true) ∧
        (∀ r ∈ recs, r.groups = g ∧ r.hazardFree) ∧
        ((pk' = pk ∧ pd' = pd) ∨ (pk' = pd ∧ pd' = pk)) ∧
        (cfg.ADVECT_PRESSURE = false → pk' = pk ∧ pd' = pd) := by
  induction its with
  | nil =>
    intro vk vd vu ds dd dt pk pd cs log hnd hmac
    exact ⟨vk, vd, vu, ds, dd, dt, pk, pd, cs, [], by simp [Fluid3D.simulateMany], hnd, hmac,
      by simp, Or.inl ⟨rfl, rfl⟩, fun _ => ⟨rfl, rfl⟩⟩
  | cons n ns ih =>
    intro vk vd vu ds dd dt pk pd cs log hnd hmac
    obtain ⟨a, b, c, e, f, dt', cs', pre, heq, hnd', hmac', hpre, -⟩ :=
      Simulate_roles cfg g vk vd vu ds dd dt pk pd cs log n hnd hmac
    have htail := tailRecs_hazardFree cfg g a b c e f pk pd dt' hnd'
    have hnd3 : (a :: b :: c :: f :: e ::
        (if cfg.ADVECT_PRESSURE then pd else pk) :: (if cfg.ADVECT_PRESSURE then pk else pd) ::
          dt'.toList).Nodup := by
      cases cfg.ADVECT_PRESSURE
      · exact hnd'
      · exact nodup_swap_pressure _ _ _ _ _ _ _ _ hnd'
    obtain ⟨a2, b2, c2, e2, f2, dt2, pk2, pd2, cs2, recs, heq2, hnd2, hmac2, hrecs, hp, hp'⟩ :=
      ih a b c f e dt' _ _ cs' (log ++ (pre ++ tailRecs cfg g a b e f pk pd)) hnd3 hmac'
    refine ⟨a2, b2, c2, e2, f2, dt2, pk2, pd2, cs2, (pre ++ tailRecs cfg g a b e f pk pd) ++ recs,
      ?_, hnd2, hmac2, ?_, ?_, ?_⟩
    · simp only [Fluid3D.simulateMany, heq, heq2, List.append_assoc]
    · intro r hr
      rcases List.mem_append.1 hr with hr | hr
      · rcases List.mem_append.1 hr with hr | hr
        · exact hpre r hr
        · exact htail r hr
      · exact hrecs r hr
    · cases hap : cfg.ADVECT_PRESSURE
      · simp only [hap, if_false, Bool.false_eq_true] at hp
        exact hp
      · simp only [hap, if_true] at hp
        rcases hp with ⟨h1, h2⟩ | ⟨h1, h2⟩
        · exact Or.inr ⟨h1, h2⟩
        · exact Or.inl ⟨h1, h2⟩
    · intro hap
      have := hp' hap
      simpa [hap] using this

theorem Init_nodup (cfg : SharedMacros) (n : Nat) :
    ((n + densityCount cfg) :: (n + densityCount cfg + 1) :: (n + densityCount cfg + 2) :: n ::
      (n + 1) :: (n + densityCount cfg + 3) :: (n + densityCount cfg + 4) ::
      (if cfg.MACCORMACK then some (n + 2) else none).toList).Nodup := by
  cases hm : cfg.MACCORMACK <;> simp [densityCount, hm] <;> omega

theorem run_roles (cfg : SharedMacros) (dev : Device) (w h d : Nat) (its : List Nat) :
    ∃ a b c e f dt' pk' pd' cs' recs,
      Fluid3D.run cfg dev w h d its =
        some (Fluid3D.ofRoles cfg
            (w / cfg.THREAD_BLOCK_X, h / cfg.THREAD_BLOCK_Y, d / cfg.THREAD_BLOCK_Z)
            a b c e f dt' pk' pd',
          { cs := cs', srv := [], uav := [], log := recs }) ∧
      (a :: b :: c :: e :: f :: pk' :: pd' :: dt'.toList).Nodup ∧
      (cfg.MACCORMACK = true → dt'.isSome = true) ∧
      (∀ r ∈ recs, r.groups =
          (w / cfg.THREAD_BLOCK_X, h / cfg.THREAD_BLOCK_Y, d / cfg.THREAD_BLOCK_Z) ∧
        r.hazardFree) ∧
      (cfg.ADVECT_PRESSURE = false →
        pk' = dev.textures.length + densityCount cfg + 3 ∧
        pd' = dev.textures.length + densityCount cfg + 4) := by
  obtain ⟨a, b, c, e, f, dt', pk', pd', cs', recs, heq, hnd, hmac, hrecs, -, hp⟩ :=
    simulateMany_roles cfg (w / cfg.THREAD_BLOCK_X, h / cfg.THREAD_BLOCK_Y, d / cfg.THREAD_BLOCK_Z)
      its _ _ _ _ _ _ _ _ none [] (Init_nodup cfg dev.textures.length)
      (by intro hm; simp [hm])
  refine ⟨a, b, c, e, f, dt', pk', pd', cs', recs, ?_, hnd, hmac, hrecs, hp⟩
  rw [Fluid3D.run, Init_roles, Context.init, heq]
  simp

theorem jacobi_eq (p : Poisson3D) (ctx : Context) (d u : Buf)
    (hd : p.m_pDstUnknown = some d) (hu : p.m_pSrcUnknown = some u) :
    p.jacobi ctx = some ({ p with m_pSrcUnknown := some d, m_pDstUnknown := some u },
      { cs := some p.m_uCSIteration,
        srv := Slots.unbind (Slots.bind ctx.srv (p.m_uSRField + 1) u) (p.m_uSRField + 1),
        uav := Slots.bind ctx.uav p.m_uUASlot d,
        log := ctx.log ++ [{ shader := some p.m_uCSIteration, groups := p.m_vThreadGroupSize,
                             srv := Slots.bind ctx.srv (p.m_uSRField + 1) u,
                             uav := Slots.bind ctx.uav p.m_uUASlot d }] }) := by
  simp [Poisson3D.jacobi, hd, hu, Context.CSSetUnorderedAccessViews, Context.CSSetShaderResources,
    Context.CSSetShader, Context.Dispatch, Slots.setViews, Slots.set]

theorem jacobiLoop_spec (n : Nat) :
    ∀ (p : Poisson3D) (ctx : Context) (d u : Buf),
      p.m_pDstUnknown = some d → p.m_pSrcUnknown = some u →
      ∃ d' u' ctx' recs,
        p.jacobiLoop n ctx =
          some ({ p with m_pSrcUnknown := some u', m_pDstUnknown := some d' }, ctx') ∧
        ((d' = d ∧ u' = u) ∨ (d' = u ∧ u' = d)) ∧
        ctx'.log = ctx.log ++ recs ∧ recs.length = n ∧
        ∀ r ∈ recs, r.shader = some p.m_uCSIteration ∧ r.groups = p.m_vThreadGroupSize ∧
          ((Slots.view r.uav p.m_uUASlot = some d ∧ Slots.view r.srv (p.m_uSRField + 1) = some u) ∨
           (Slots.view r.uav p.m_uUASlot = some u ∧ Slots.view r.srv (p.m_uSRField + 1) = some d)) := by
  induction n with
  | zero =>
    intro p ctx d u hd hu
    refine ⟨d, u, ctx, [], ?_, Or.inl ⟨rfl, rfl⟩, by simp, rfl, by simp⟩
    cases p
    simp only at hd hu
    simp [Poisson3D.jacobiLoop, hd, hu]
  | succ n ih =>
    intro p ctx d u hd hu
    obtain ⟨d', u', ctx', recs, heq, hperm, hlog, hlen, hrec⟩ :=
      ih { p with m_pSrcUnknown := some d, m_pDstUnknown := some u }
        { cs := some p.m_uCSIteration,
          srv := Slots.unbind (Slots.bind ctx.srv (p.m_uSRField + 1) u) (p.m_uSRField + 1),
          uav := Slots.bind ctx.uav p.m_uUASlot d,
          log := ctx.log ++ [{ shader := some p.m_uCSIteration, groups := p.m_vThreadGroupSize,
                               srv := Slots.bind ctx.srv (p.m_uSRField + 1) u,
                               uav := Slots.bind ctx.uav p.m_uUASlot d }] } u d rfl rfl
    refine ⟨d', u', ctx',
      { shader := some p.m_uCSIteration, groups := p.m_vThreadGroupSize,
        srv := Slots.bind ctx.srv (p.m_uSRField + 1) u,
        uav := Slots.bind ctx.uav p.m_uUASlot d } :: recs, ?_, ?_, ?_, by simp [hlen], ?_⟩
    · simp only [Poisson3D.jacobiLoop, jacobi_eq p ctx d u hd hu, heq]
    · rcases hperm with ⟨h1, h2⟩ | ⟨h1, h2⟩
      · exact Or.inr ⟨h1, h2⟩
      · exact Or.inl ⟨h1, h2⟩
    · rw [hlog]; simp
    · intro r hr
      rcases List.mem_cons.1 hr with rfl | hr
      · exact ⟨rfl, rfl, Or.inl ⟨Slots.view_bind _ _ _, Slots.view_bind _ _ _⟩⟩
      · obtain ⟨h1, h2, h3⟩ := hrec r hr
        exact ⟨h1, h2, h3.symm⟩

theorem SolvePoisson_jacobi (p : Poisson3D) (ctx : Context) (n : Nat) (k d u : Buf)
    (hk : p.m_pSrcKnown = some k) (hd : p.m_pDstUnknown = some d)
    (hu : p.m_pSrcUnknown = some u) :
    ∃ d' u' ctx' recs,
      p.SolvePoisson ctx n =
        some ({ p with m_pSrcKnown := some d', m_pDstUnknown := some k,
                       m_pSrcUnknown := some u' }, ctx') ∧
      ((d' = d ∧ u' = u) ∨ (d' = u ∧ u' = d)) ∧
      ctx'.log = ctx.log ++ recs ∧ recs.length = n % 256 ∧
      ∀ r ∈ recs, r.shader = some p.m_uCSIteration ∧ r.groups = p.m_vThreadGroupSize ∧
        ((Slots.view r.uav p.m_uUASlot = some d ∧ Slots.view r.srv (p.m_uSRField + 1) = some u) ∨
         (Slots.view r.uav p.m_uUASlot = some u ∧ Slots.view r.srv (p.m_uSRField + 1) = some d)) := by
  obtain ⟨d', u', ctx', recs, heq, hperm, hlog, hlen, hrec⟩ :=
    jacobiLoop_spec (n % 256) p (ctx.CSSetShaderResources p.m_uSRField [some k]) d u hd hu
  refine ⟨d', u', (ctx'.CSSetShaderResources p.m_uSRField [none, none]).CSSetUnorderedAccessViews
    p.m_uUASlot [none], recs, ?_, hperm, ?_, hlen, hrec⟩
  · simp only [Poisson3D.SolvePoisson, hk, hu, Option.isSome_some, if_true, heq,
      Option.bind_eq_bind, Option.some_bind, Option.pure_def, Poisson3D.SwapBuffers,
      Poisson3D.bUnknownDefault, Bool.false_eq_true, if_false]
  · simpa [Context.CSSetShaderResources, Context.CSSetUnorderedAccessViews] using hlog

theorem SolvePoisson_gaussSeidel (p : Poisson3D) (ctx : Context) (n : Nat) (k d : Buf)
    (hk : p.m_pSrcKnown = some k) (hd : p.m_pDstUnknown = some d)
    (hu : p.m_pSrcUnknown = none) :
    ∃ ctx' r,
      p.SolvePoisson ctx n =
        some ({ p with m_pSrcKnown := some d, m_pDstUnknown := some k }, ctx') ∧
      ctx'.log = ctx.log ++ [r] ∧
      r.shader = some p.m_uCSIteration ∧ r.groups = p.m_vThreadGroupSize ∧
      Slots.view r.uav p.m_uUASlot = some d ∧ Slots.view r.srv p.m_uSRField = some k := by
  refine ⟨((((((ctx.CSSetShaderResources p.m_uSRField [some k]).CSSetUnorderedAccessViews
      p.m_uUASlot [some d]).CSSetShader p.m_uCSIteration).Dispatch
      p.m_vThreadGroupSize).CSSetShaderResources p.m_uSRField [none, none]).CSSetUnorderedAccessViews
      p.m_uUASlot [none]),
    { shader := some p.m_uCSIteration, groups := p.m_vThreadGroupSize,
      srv := Slots.bind ctx.srv p.m_uSRField k,
      uav := Slots.bind ctx.uav p.m_uUASlot d }, ?_, ?_, rfl, rfl,
    Slots.view_bind _ _ _, Slots.view_bind _ _ _⟩
  · simp only [Poisson3D.SolvePoisson, hk, hu, hd, Poisson3D.gaussSeidel, Option.isSome_none,
      Bool.false_eq_true, if_false, Option.bind_eq_bind, Option.some_bind, Option.pure_def,
      Poisson3D.SwapBuffers, Poisson3D.bUnknownDefault]
  · simp [Context.CSSetShaderResources, Context.CSSetUnorderedAccessViews, Context.CSSetShader,
      Context.Dispatch, Slots.setViews, Slots.set]

theorem Advect_eq (p : Poisson3D) (ctx : Context) (src : Option Buf) (k d : Buf)
    (hk : p.m_pSrcKnown = some k) (hd : p.m_pDstUnknown = some d) :
    ∃ ctx', p.Advect ctx src =
      some ({ p with m_pSrcKnown := some d, m_pDstUnknown := some k }, ctx') := by
  refine ⟨(((((ctx.CSSetUnorderedAccessViews p.m_uUASlot [some d]).CSSetShaderResources p.m_uSRField
    [some k, src]).CSSetShader p.m_uCSTemporal).Dispatch
    p.m_vThreadGroupSize).CSSetShaderResources p.m_uSRField [none, none]).CSSetUnorderedAccessViews
    p.m_uUASlot [none], ?_⟩
  simp only [Poisson3D.Advect, hk, hd, Option.bind_eq_bind, Option.some_bind, Option.pure_def,
    Poisson3D.SwapBuffers, Poisson3D.bUnknownDefault, Bool.false_eq_true, if_false]

theorem jacobiLoop_last (n : Nat) :
    ∀ (p : Poisson3D) (ctx : Context) (d u : Buf),
      p.m_pDstUnknown = some d → p.m_pSrcUnknown = some u →
      ∀ (p' : Poisson3D) (ctx' : Context), p.jacobiLoop (n + 1) ctx = some (p', ctx') →
      ∃ r, ctx'.log.getLast? = some r ∧ Slots.view r.uav p.m_uUASlot = p'.m_pSrcUnknown := by
  induction n with
  | zero =>
    intro p ctx d u hd hu p' ctx' h
    simp only [Poisson3D.jacobiLoop, jacobi_eq p ctx d u hd hu, Option.some.injEq,
      Prod.mk.injEq] at h
    obtain ⟨rfl, rfl⟩ := h
    exact ⟨_, List.getLast?_concat _, Slots.view_bind _ _ _⟩
  | succ n ih =>
    intro p ctx d u hd hu p' ctx' h
    rw [Poisson3D.jacobiLoop] at h
    simp only [jacobi_eq p ctx d u hd hu] at h
    exact ih { p with m_pSrcUnknown := some d, m_pDstUnknown := some u } _ u d rfl rfl p' ctx' h

theorem SolvePoisson_jacobi_last (p : Poisson3D) (ctx : Context) (n : Nat) (k d u : Buf)
    (hk : p.m_pSrcKnown = some k) (hd : p.m_pDstUnknown = some d)
    (hu : p.m_pSrcUnknown = some u) (hn : 0 < n % 256) :
    ∃ p' ctx' r,
      p.SolvePoisson ctx n = some (p', ctx') ∧
      ctx'.log.getLast? = some r ∧
      Slots.view r.uav p.m_uUASlot = p'.GetTmp ∧
      p'.GetDst = some k ∧
      ((p'.GetSrc = some d ∧ p'.GetTmp = some u) ∨ (p'.GetSrc = some u ∧ p'.GetTmp = some d)) := by
  obtain ⟨d', u', ctxL, recs, heq, hperm, -⟩ :=
    jacobiLoop_spec (n % 256) p (ctx.CSSetShaderResources p.m_uSRField [some k]) d u hd hu
  obtain ⟨m, hm⟩ : ∃ m, n % 256 = m + 1 := ⟨n % 256 - 1, by omega⟩
  have heq' := heq
  rw [hm] at heq'
  obtain ⟨r, hlast, hview⟩ := jacobiLoop_last m p _ d u hd hu _ _ heq'
  refine ⟨{ p with m_pSrcKnown := some d', m_pDstUnknown := some k, m_pSrcUnknown := some u' },
    (ctxL.CSSetShaderResources p.m_uSRField [none, none]).CSSetUnorderedAccessViews
      p.m_uUASlot [none], r, ?_, hlast, hview, rfl, ?_⟩
  · simp only [Poisson3D.SolvePoisson, hk, hu, Option.isSome_some, if_true, heq,
      Option.bind_eq_bind, Option.some_bind, Option.pure_def, Poisson3D.SwapBuffers,
      Poisson3D.bUnknownDefault, Bool.false_eq_true, if_false]
  · rcases hperm with ⟨rfl, rfl⟩ | ⟨rfl, rfl⟩
    · exact Or.inl ⟨rfl, rfl⟩
    · exact Or.inr ⟨rfl, rfl⟩

theorem Init_textures (cfg : SharedMacros) (dev : Device) (w h d : Nat) :
    ((Fluid3D.new cfg).Init cfg dev w h d).2.textures =
      dev.textures ++ initTextures cfg w h d := by
  cases hm : cfg.MACCORMACK <;>
  simp [Fluid3D.Init, Fluid3D.new, Poisson3D.Init, Device.Create, hm, initTextures]

theorem tailRecs_default (cfg : SharedMacros) (g : Nat × Nat × Nat) (a b e f pk pd : Buf)
    (hap : cfg.ADVECT_PRESSURE = false) :
    tailRecs cfg g a b e f pk pd =
      [{ shader := some cfg.g_uCSImpulse, groups := g, srv := [(0, a), (1, e)],
         uav := [(0, b), (1, f)] },
       { shader := some cfg.g_uCSDivergence, groups := g, srv := [(0, b)],
         uav := [(0, pd), (1, f)] },
       { shader := some cfg.g_uCSPressure, groups := g, srv := [(0, pd)],
         uav := [(0, pk), (1, f)] },
       { shader := some cfg.g_uCSBound, groups := g, srv := [(0, b)], uav := [(0, a), (1, f)] },
       { shader := some cfg.g_uCSProject, groups := g, srv := [(0, a), (1, pk)],
         uav := [(0, b), (1, f)] },
       { shader := some cfg.g_uCSBound, groups := g, srv := [(0, b)], uav := [(0, a), (1, f)] }] := by
  simp [tailRecs, hap]

theorem get_append_add {α : Type} (l₁ l₂ : List α) (k : Nat) :
    (l₁ ++ l₂).get? (l₁.length + k) = l₂.get? k := by
  rw [List.get?_eq_getElem?, List.get?_eq_getElem?, List.getElem?_append_right (by omega)]
  simp

theorem swapVelocity_density (f : Fluid3D) :
    f.swapVelocity.m_pSrcDensity = f.m_pSrcDensity ∧
    f.swapVelocity.m_pDstDensity = f.m_pDstDensity ∧
    f.swapVelocity.m_pTmpDensity = f.m_pTmpDensity := by
  simp [Fluid3D.swapVelocity]

theorem bound_density (cfg : SharedMacros) (f f' : Fluid3D) (ctx ctx' : Context)
    (h : f.bound cfg ctx = some (f', ctx')) :
    f'.m_pSrcDensity = f.m_pSrcDensity ∧ f'.m_pDstDensity = f.m_pDstDensity := by
  simp only [Fluid3D.bound, Option.bind_eq_bind, Option.pure_def, Option.bind_eq_some,
    Option.some.injEq, Prod.mk.injEq] at h
  obtain ⟨_, _, _, _, rfl, -⟩ := h
  exact ⟨(swapVelocity_density f).1, (swapVelocity_density f).2.1⟩

theorem projection_density (cfg : SharedMacros) (f f' : Fluid3D) (ctx ctx' : Context)
    (h : f.projection cfg ctx = some (f', ctx')) :
    f'.m_pSrcDensity = f.m_pSrcDensity ∧ f'.m_pDstDensity = f.m_pDstDensity := by
  simp only [Fluid3D.projection, Option.bind_eq_bind, Option.pure_def, Option.bind_eq_some,
    Option.some.injEq, Prod.mk.injEq] at h
  obtain ⟨_, _, _, _, _, _, rfl, -⟩ := h
  exact ⟨(swapVelocity_density f).1, (swapVelocity_density f).2.1⟩

theorem project_density (cfg : SharedMacros) (f f' : Fluid3D) (ctx ctx' : Context)
    (h : f.project cfg ctx = some (f', ctx')) :
    f'.m_pSrcDensity = f.m_pSrcDensity ∧ f'.m_pDstDensity = f.m_pDstDensity := by
  simp only [Fluid3D.project, Option.bind_eq_bind, Option.pure_def, Option.bind_eq_some] at h
  obtain ⟨v, -, ⟨p1, c1⟩, -, ⟨p2, c2⟩, -, ⟨f1, c3⟩, h1, ⟨f2, c4⟩, h2, ⟨f3, c5⟩, h3, h4⟩ := h
  have e1 := bound_density cfg _ _ _ _ h1
  have e2 := projection_density cfg _ _ _ _ h2
  have e3 := bound_density cfg _ _ _ _ h3
  simp only at e1 e2 e3
  have e : f3.m_pSrcDensity = f.m_pSrcDensity ∧ f3.m_pDstDensity = f.m_pDstDensity :=
    ⟨e3.1.trans (e2.1.trans e1.1), e3.2.trans (e2.2.trans e1.2)⟩
  cases hap : cfg.ADVECT_PRESSURE
  · simp only [hap, Bool.false_eq_true, if_false, Option.some.injEq, Prod.mk.injEq] at h4
    obtain ⟨rfl, -⟩ := h4
    exact e
  · simp only [hap, if_true, Option.bind_eq_bind, Option.bind_eq_some, Option.some.injEq,
      Prod.mk.injEq] at h4
    obtain ⟨_, _, ⟨p3, c6⟩, -, rfl, -⟩ := h4
    exact e

theorem Render_roles (cfg : SharedMacros) (g : Nat × Nat × Nat) (a b c e f : Buf) (dt : Option Buf)
    (pk pd : Buf) (cs : Option Nat) (log : List Dispatch) (sc : Buf) (wd ht : Nat) :
    ∃ ctxR rR,
      (Fluid3D.ofRoles cfg g a b c e f dt pk pd).Render cfg
          { cs := cs, srv := [], uav := [], log := log } (some sc) wd ht = some ctxR ∧
      ctxR.log = log ++ [rR] ∧ rR.srv = [(0, e)] ∧ rR.uav = [(0, sc)] := by
  simp [Fluid3D.Render, Fluid3D.ofRoles, Context.CSSetUnorderedAccessViews,
    Context.CSSetShaderResources, Context.CSSetShader, Context.Dispatch, Slots.setViews, Slots.set,
    Slots.bind, Slots.unbind]

theorem step_mode (p : Poisson3D) (ctx : Context) (op : Poisson3D.Op) (jac : Bool)
    (hk : p.m_pSrcKnown.isSome = true) (hd : p.m_pDstUnknown.isSome = true)
    (hu : p.m_pSrcUnknown.isSome = jac)
    (hop : op = Poisson3D.Op.SwapBuffers true → jac = true) :
    ∃ p' ctx', p.step ctx op = some (p', ctx') ∧
      p'.m_pSrcKnown.isSome = true ∧ p'.m_pDstUnknown.isSome = true ∧
      p'.m_pSrcUnknown.isSome = jac := by
  obtain ⟨k, hk'⟩ := Option.isSome_iff_exists.1 hk
  obtain ⟨d, hd'⟩ := Option.isSome_iff_exists.1 hd
  cases op with
  | SetShaders a b c =>
    exact ⟨_, _, rfl, by simpa [Poisson3D.SetShaders] using hk,
      by simpa [Poisson3D.SetShaders] using hd, by simpa [Poisson3D.SetShaders] using hu⟩
  | ComputeDivergence src =>
    refine ⟨_, _, ComputeDivergence_eq p ctx src d hd', ?_, ?_, ?_⟩ <;>
    simp [Poisson3D.SwapBuffers, hk, hd, hu]
  | SolvePoisson n =>
    cases hU : p.m_pSrcUnknown with
    | none =>
      obtain ⟨ctx', r, heq, -⟩ := SolvePoisson_gaussSeidel p ctx n k d hk' hd' hU
      refine ⟨_, ctx', heq, rfl, rfl, ?_⟩
      simpa using hu
    | some u =>
      obtain ⟨d', u', ctx', recs, heq, -⟩ := SolvePoisson_jacobi p ctx n k d u hk' hd' hU
      refine ⟨_, ctx', heq, rfl, rfl, ?_⟩
      rw [hU] at hu
      simpa using hu
  | Advect src =>
    obtain ⟨ctx', heq⟩ := Advect_eq p ctx src k d hk' hd'
    refine ⟨_, ctx', heq, rfl, rfl, ?_⟩
    simpa using hu
  | SwapBuffers b =>
    cases b with
    | false =>
      exact ⟨_, _, rfl, by simpa [Poisson3D.SwapBuffers] using hd,
        by simpa [Poisson3D.SwapBuffers] using hk, by simpa [Poisson3D.SwapBuffers] using hu⟩
    | true =>
      have hj : jac = true := hop rfl
      subst hj
      exact ⟨_, _, rfl, by simpa [Poisson3D.SwapBuffers] using hk,
        by simpa [Poisson3D.SwapBuffers] using hu, by simpa [Poisson3D.SwapBuffers] using hd⟩

theorem steps_mode (ops : List Poisson3D.Op) (jac : Bool) :
    ∀ (p : Poisson3D) (ctx : Context),
      p.m_pSrcKnown.isSome = true → p.m_pDstUnknown.isSome = true →
      p.m_pSrcUnknown.isSome = jac →
      (∀ op ∈ ops, op = Poisson3D.Op.SwapBuffers true → jac = true) →
      ∃ p' ctx', Poisson3D.steps ops p ctx = some (p', ctx') ∧
        p'.m_pSrcKnown.isSome = true ∧ p'.m_pDstUnknown.isSome = true ∧
        p'.m_pSrcUnknown.isSome = jac := by
  induction ops with
  | nil =>
    intro p ctx hk hd hu _
    exact ⟨p, ctx, rfl, hk, hd, hu⟩
  | cons op ops ih =>
    intro p ctx hk hd hu hops
    obtain ⟨p1, ctx1, heq, hk1, hd1, hu1⟩ :=
      step_mode p ctx op jac hk hd hu (hops op (List.mem_cons_self _ _))
    obtain ⟨p2, ctx2, heq2, h2⟩ :=
      ih p1 ctx1 hk1 hd1 hu1 (fun o ho => hops o (List.mem_cons_of_mem _ ho))
    exact ⟨p2, ctx2, by simp only [Poisson3D.steps, heq, heq2], h2⟩

/-! ## The claims -/

/-- C1. After `Init` and any sequence of `Simulate` calls (any grid size, any viscosity iteration
counts, any of the four builds) every call has returned, every dispatch issued so far has its
unordered-access buffers disjoint from its shader-resource buffers, and the three velocity
buffers of the diffusion solver, the density buffers and the two pressure buffers are pairwise
distinct, the velocity handles of the pipeline being those of the diffusion solver. -/
theorem dispatches_hazard_free (cfg : SharedMacros) (dev : Device) (uWidth uHeight uDepth : Nat)
    (its : List Nat) :
    ∃ f ctx,
      Fluid3D.run cfg dev uWidth uHeight uDepth its = some (f, ctx) ∧
      (∀ r ∈ ctx.log, r.hazardFree) ∧
      ∃ vk vd vu ds dd pk pd,
        f.m_pDiffuse.GetSrc = some vk ∧ f.m_pDiffuse.GetDst = some vd ∧
        f.m_pDiffuse.GetTmp = some vu ∧
        f.m_pSrcVelocity = some vk ∧ f.m_pDstVelocity = some vd ∧
        f.m_pSrcDensity = some ds ∧ f.m_pDstDensity = some dd ∧
        f.m_pPressure.GetSrc = some pk ∧ f.m_pPressure.GetDst = some pd ∧
        (vk :: vd :: vu :: ds :: dd :: pk :: pd :: f.m_pTmpDensity.toList).Nodup := by
  obtain ⟨a, b, c, e, f, dt, pk, pd, cs, recs, heq, hnd, -, hrecs, -⟩ :=
    run_roles cfg dev uWidth uHeight uDepth its
  exact ⟨_, _, heq, fun r hr => (hrecs r hr).2, a, b, c, e, f, pk, pd, rfl, rfl, rfl, rfl, rfl, rfl,
    rfl, rfl, rfl, hnd⟩

/-- C2 fails on the code.  Jacobi-mode solver with known 10, next 11, second unknown buffer 12:
`SolvePoisson(1)` issues one dispatch, which writes 11, and returns with `GetSrc()` = 12 and
`GetTmp()` = 11; `SolvePoisson(2)` writes 11 then 12 and returns with `GetSrc()` = 11.  In the
pipeline (grid 8 x 8 x 8, first step, one viscosity iteration) the diffusion dispatch writes
buffer 2 and the impulse dispatch that follows reads the velocity from buffer 4, the zero-filled
texture that no dispatch has written.  In general, for every Jacobi-mode solver and every
iteration count from 1 to 255, the buffer the last dispatch writes is `GetTmp()` on return, while
`GetSrc()` is the other buffer of the unknown pair and `GetDst()` is the known field. -/
theorem SolvePoisson_jacobi_result_not_current :
    ((Poisson3D.ofRoles (1, 1, 1) 0 1 2 10 11 (some 12)).SolvePoisson Context.init 1).map
        (fun r => (r.1.GetSrc, r.1.GetTmp, r.2.log.map (fun d => Slots.view d.uav 0))) =
      some (some 12, some 11, [some 11]) ∧
    ((Poisson3D.ofRoles (1, 1, 1) 0 1 2 10 11 (some 12)).SolvePoisson Context.init 2).map
        (fun r => (r.1.GetSrc, r.1.GetTmp, r.2.log.map (fun d => Slots.view d.uav 0))) =
      some (some 11, some 12, [some 11, some 12]) ∧
    (Fluid3D.run defaultBuild { textures := [] } 8 8 8 [1]).map
        (fun r => (r.2.log.map (fun d => (d.shader, Slots.view d.srv 0, Slots.view d.uav 0))).take 3) =
      some [(some defaultBuild.g_uCSAdvect, some 2, some 3),
            (some defaultBuild.g_uCSDiffuse, some 3, some 2),
            (some defaultBuild.g_uCSImpulse, some 4, some 3)] ∧
    (((Fluid3D.new defaultBuild).Init defaultBuild { textures := [] } 8 8 8).2.textures.get? 4).map
        (fun t => t.zeroData) = some (some 4096) ∧
    ∀ (g : Nat × Nat × Nat) (it tm dv : Nat) (k d u : Buf) (ctx : Context) (n : Nat),
      ∃ p' ctx' r,
        (Poisson3D.ofRoles g it tm dv k d (some u)).SolvePoisson ctx (n % 255 + 1) =
          some (p', ctx') ∧
        ctx'.log.getLast? = some r ∧
        Slots.view r.uav 0 = p'.GetTmp ∧
        p'.GetDst = some k ∧
        ((p'.GetSrc = some d ∧ p'.GetTmp = some u) ∨
          (p'.GetSrc = some u ∧ p'.GetTmp = some d)) := by
  refine ⟨by decide, by decide, by decide, by decide, ?_⟩
  intro g it tm dv k d u ctx n
  exact SolvePoisson_jacobi_last (Poisson3D.ofRoles g it tm dv k d (some u)) ctx (n % 255 + 1)
    k d u rfl rfl rfl (by omega)

/-- C3. `ComputeDivergence` on a solver whose `m_pDstUnknown` is a buffer `d` issues exactly one
dispatch, of the divergence shader, with `d` bound as the unordered-access target and the source
view bound as the shader resource; on return `GetSrc()` is `d`, `GetDst()` is the handle that was
`m_pSrcKnown` on entry, and `m_pSrcUnknown` is unchanged.  (Distinctness of the two handles is not
needed.) -/
theorem ComputeDivergence_postcondition (p : Poisson3D) (ctx : Context) (srvSource : Option Buf)
    (d : Buf) (hd : p.m_pDstUnknown = some d) :
    ∃ p' ctx' r,
      p.ComputeDivergence ctx srvSource = some (p', ctx') ∧
      ctx'.log = ctx.log ++ [r] ∧
      r.shader = some p.m_uCSDiv ∧ r.groups = p.m_vThreadGroupSize ∧
      Slots.view r.uav p.m_uUASlot = some d ∧
      Slots.view r.srv p.m_uSRField = srvSource ∧
      p'.GetSrc = some d ∧ p'.GetDst = p.m_pSrcKnown ∧
      p'.m_pSrcUnknown = p.m_pSrcUnknown := by
  refine ⟨_, _, _, ComputeDivergence_eq p ctx srvSource d hd, rfl, rfl, rfl,
    Slots.view_bind _ _ _, Slots.view_set _ _ _, ?_, ?_, ?_⟩ <;>
  simp [Poisson3D.SwapBuffers, Poisson3D.GetSrc, Poisson3D.GetDst, hd]

/-- C3 at a pressure solver with known 0 and unknown 1, on the context with nothing bound. -/
theorem ComputeDivergence_postcondition_witness :
    (Poisson3D.ofRoles (2, 2, 2) 5 6 4 0 1 none).m_pDstUnknown = some 1 ∧
    ∃ p' ctx' r,
      (Poisson3D.ofRoles (2, 2, 2) 5 6 4 0 1 none).ComputeDivergence Context.init (some 7) =
        some (p', ctx') ∧
      ctx'.log = Context.init.log ++ [r] ∧
      r.shader = some (Poisson3D.ofRoles (2, 2, 2) 5 6 4 0 1 none).m_uCSDiv ∧
      r.groups = (Poisson3D.ofRoles (2, 2, 2) 5 6 4 0 1 none).m_vThreadGroupSize ∧
      Slots.view r.uav (Poisson3D.ofRoles (2, 2, 2) 5 6 4 0 1 none).m_uUASlot = some 1 ∧
      Slots.view r.srv (Poisson3D.ofRoles (2, 2, 2) 5 6 4 0 1 none).m_uSRField = some 7 ∧
      p'.GetSrc = some 1 ∧
      p'.GetDst = (Poisson3D.ofRoles (2, 2, 2) 5 6 4 0 1 none).m_pSrcKnown ∧
      p'.m_pSrcUnknown = (Poisson3D.ofRoles (2, 2, 2) 5 6 4 0 1 none).m_pSrcUnknown :=
  ⟨rfl, ComputeDivergence_postcondition _ Context.init (some 7) 1 rfl⟩

/-- C4, as stated, fails: on the solver with current 10, next 11 and auxiliary 12,
`SwapBuffers(true)` does not exchange current and auxiliary and does not leave next unchanged;
it leaves current at 10 and exchanges next and auxiliary. -/
theorem SwapBuffers_true_counterexample :
    ¬ (((Poisson3D.ofRoles (1, 1, 1) 0 1 2 10 11 (some 12)).SwapBuffers true).GetSrc =
          (Poisson3D.ofRoles (1, 1, 1) 0 1 2 10 11 (some 12)).GetTmp ∧
       ((Poisson3D.ofRoles (1, 1, 1) 0 1 2 10 11 (some 12)).SwapBuffers true).GetTmp =
          (Poisson3D.ofRoles (1, 1, 1) 0 1 2 10 11 (some 12)).GetSrc ∧
       ((Poisson3D.ofRoles (1, 1, 1) 0 1 2 10 11 (some 12)).SwapBuffers true).GetDst =
          (Poisson3D.ofRoles (1, 1, 1) 0 1 2 10 11 (some 12)).GetDst) ∧
    ((Poisson3D.ofRoles (1, 1, 1) 0 1 2 10 11 (some 12)).SwapBuffers true).GetSrc = some 10 ∧
    ((Poisson3D.ofRoles (1, 1, 1) 0 1 2 10 11 (some 12)).SwapBuffers true).GetDst = some 12 ∧
    ((Poisson3D.ofRoles (1, 1, 1) 0 1 2 10 11 (some 12)).SwapBuffers true).GetTmp = some 11 := by
  decide

/-- C4, amended.  For every solver state, `SwapBuffers(false)` exchanges current (`GetSrc`) and
next (`GetDst`) and leaves auxiliary (`GetTmp`) unchanged; `SwapBuffers(true)` exchanges next and
auxiliary and leaves current unchanged.  Either call changes nothing but these handles. -/
theorem SwapBuffers_pairs (p : Poisson3D) :
    ((p.SwapBuffers false).GetSrc = p.GetDst ∧ (p.SwapBuffers false).GetDst = p.GetSrc ∧
      (p.SwapBuffers false).GetTmp = p.GetTmp) ∧
    ((p.SwapBuffers true).GetDst = p.GetTmp ∧ (p.SwapBuffers true).GetTmp = p.GetDst ∧
      (p.SwapBuffers true).GetSrc = p.GetSrc) ∧
    ∀ b : Bool,
      p.SwapBuffers b =
        { p with m_pSrcKnown := (p.SwapBuffers b).GetSrc, m_pDstUnknown := (p.SwapBuffers b).GetDst,
                 m_pSrcUnknown := (p.SwapBuffers b).GetTmp } := by
  refine ⟨by simp [Poisson3D.SwapBuffers, Poisson3D.GetSrc, Poisson3D.GetDst, Poisson3D.GetTmp],
    by simp [Poisson3D.SwapBuffers, Poisson3D.GetSrc, Poisson3D.GetDst, Poisson3D.GetTmp], ?_⟩
  intro b
  cases b <;> simp [Poisson3D.SwapBuffers, Poisson3D.GetSrc, Poisson3D.GetDst, Poisson3D.GetTmp]

/-- C5, as stated, fails: `R32_UINT` has one channel, yet `Init` with that format allocates the
second unknown buffer (Jacobi mode). -/
theorem Init_single_channel_counterexample :
    DXGI_FORMAT.R32_UINT.channels = 1 ∧
    ¬ (((Poisson3D.new.Init defaultBuild { textures := [] } 8 8 8 4
          DXGI_FORMAT.R32_UINT).1.m_pSrcUnknown.isSome = true) ↔
        1 < DXGI_FORMAT.R32_UINT.channels) := by
  decide

/-- C5, amended.  `Init` allocates `m_pSrcUnknown` exactly when the format is neither `R32_FLOAT`
nor `R16_FLOAT`; in particular it does for every format with more than one channel.  On the
initialised solver `SolvePoisson(n)` returns; when `m_pSrcUnknown` is allocated it issues
`n mod 256` dispatches of the iteration shader, each with an unknown buffer bound one slot above
`m_uSRField`, and otherwise it issues exactly one dispatch of the iteration shader, whose
unordered-access target is `m_pDstUnknown`. -/
theorem Init_mode_by_format (cfg : SharedMacros) (p : Poisson3D) (dev : Device)
    (uWidth uHeight uDepth uStride : Nat) (format : DXGI_FORMAT) (ctx : Context) (n : Nat) :
    (((p.Init cfg dev uWidth uHeight uDepth uStride format).1.m_pSrcUnknown.isSome = true) ↔
      (format ≠ DXGI_FORMAT.R32_FLOAT ∧ format ≠ DXGI_FORMAT.R16_FLOAT)) ∧
    (1 < format.channels →
      (p.Init cfg dev uWidth uHeight uDepth uStride format).1.m_pSrcUnknown.isSome = true) ∧
    ∃ p' ctx' recs,
      (p.Init cfg dev uWidth uHeight uDepth uStride format).1.SolvePoisson ctx n =
        some (p', ctx') ∧
      ctx'.log = ctx.log ++ recs ∧
      (∀ r ∈ recs, r.shader = some p.m_uCSIteration) ∧
      ((p.Init cfg dev uWidth uHeight uDepth uStride format).1.m_pSrcUnknown.isSome = true →
        recs.length = n % 256 ∧
        ∀ r ∈ recs, (Slots.view r.srv (p.m_uSRField + 1)).isSome = true ∧
          (Slots.view r.uav p.m_uUASlot).isSome = true) ∧
      ((p.Init cfg dev uWidth uHeight uDepth uStride format).1.m_pSrcUnknown = none →
        ∃ r, recs = [r] ∧
          Slots.view r.uav p.m_uUASlot =
            (p.Init cfg dev uWidth uHeight uDepth uStride format).1.m_pDstUnknown) := by
  have hmode : ((p.Init cfg dev uWidth uHeight uDepth uStride format).1.m_pSrcUnknown.isSome = true) ↔
      (format ≠ DXGI_FORMAT.R32_FLOAT ∧ format ≠ DXGI_FORMAT.R16_FLOAT) := by
    by_cases h : format ≠ DXGI_FORMAT.R32_FLOAT ∧ format ≠ DXGI_FORMAT.R16_FLOAT
    · simp [Poisson3D.Init, Device.Create, h]
    · simp only [Poisson3D.Init, Device.Create, h, if_false]
      simp
  refine ⟨hmode, ?_, ?_⟩
  · intro hch
    rw [hmode]
    cases format <;> simp [DXGI_FORMAT.channels] at hch ⊢
  · by_cases h : format ≠ DXGI_FORMAT.R32_FLOAT ∧ format ≠ DXGI_FORMAT.R16_FLOAT
    · obtain ⟨d', u', ctx', recs, heq, -, hlog, hlen, hrec⟩ :=
        SolvePoisson_jacobi (p.Init cfg dev uWidth uHeight uDepth uStride format).1 ctx n
          dev.textures.length (dev.textures.length + 1) (dev.textures.length + 1 + 1)
          (by simp [Poisson3D.Init, Device.Create])
          (by simp [Poisson3D.Init, Device.Create])
          (by simp [Poisson3D.Init, Device.Create, h])
      have hit : (p.Init cfg dev uWidth uHeight uDepth uStride format).1.m_uCSIteration =
          p.m_uCSIteration := by simp [Poisson3D.Init]
      have hsr : (p.Init cfg dev uWidth uHeight uDepth uStride format).1.m_uSRField =
          p.m_uSRField := by simp [Poisson3D.Init]
      have hua : (p.Init cfg dev uWidth uHeight uDepth uStride format).1.m_uUASlot =
          p.m_uUASlot := by simp [Poisson3D.Init]
      rw [hit, hsr, hua] at hrec
      refine ⟨_, ctx', recs, heq, hlog, fun r hr => (hrec r hr).1, ?_, ?_⟩
      · intro _
        refine ⟨hlen, fun r hr => ?_⟩
        rcases (hrec r hr).2.2 with ⟨h1, h2⟩ | ⟨h1, h2⟩ <;> simp [h1, h2]
      · intro hnone
        have := hmode.2 h
        simp [hnone] at this
    · obtain ⟨ctx', r, heq, hlog, hrs, -, hruav, -⟩ :=
        SolvePoisson_gaussSeidel (p.Init cfg dev uWidth uHeight uDepth uStride format).1 ctx n
          dev.textures.length (dev.textures.length + 1)
          (by simp [Poisson3D.Init, Device.Create])
          (by simp [Poisson3D.Init, Device.Create])
          (by simp only [Poisson3D.Init, Device.Create, h, if_false])
      have hit : (p.Init cfg dev uWidth uHeight uDepth uStride format).1.m_uCSIteration =
          p.m_uCSIteration := by simp [Poisson3D.Init]
      have hua : (p.Init cfg dev uWidth uHeight uDepth uStride format).1.m_uUASlot =
          p.m_uUASlot := by simp [Poisson3D.Init]
      rw [hit] at hrs
      rw [hua] at hruav
      refine ⟨_, ctx', [r], heq, hlog, ?_, ?_, ?_⟩
      · intro r' hr'
        rw [List.mem_singleton.1 hr']
        exact hrs
      · intro hsome
        exact absurd (hmode.1 hsome) h
      · intro _
        refine ⟨r, rfl, ?_⟩
        rw [hruav]
        simp [Poisson3D.Init, Device.Create]

/-- C6, as stated, fails: on a solver initialised with `R32_FLOAT` (no second unknown buffer),
`SwapBuffers(true)` leaves `m_pSrcUnknown` non-null and `m_pDstUnknown` null, and a following
`SolvePoisson` dereferences the null handle. -/
theorem mode_not_fixed_counterexample :
    (Poisson3D.new.Init defaultBuild { textures := [] } 8 8 8 4
        DXGI_FORMAT.R32_FLOAT).1.m_pSrcUnknown = none ∧
    (∃ p' ctx',
      Poisson3D.steps [Poisson3D.Op.SwapBuffers true]
          (Poisson3D.new.Init defaultBuild { textures := [] } 8 8 8 4 DXGI_FORMAT.R32_FLOAT).1
          Context.init = some (p', ctx') ∧
      p'.m_pSrcUnknown ≠ none ∧ p'.m_pDstUnknown = none) ∧
    Poisson3D.steps [Poisson3D.Op.SwapBuffers true, Poisson3D.Op.SolvePoisson 1]
        (Poisson3D.new.Init defaultBuild { textures := [] } 8 8 8 4 DXGI_FORMAT.R32_FLOAT).1
        Context.init = none := by
  refine ⟨by decide, ⟨_, _, rfl, by decide, by decide⟩, by decide⟩

/-- C6, amended.  For every solver state produced by `Init` and every finite sequence of
`SetShaders`, `ComputeDivergence`, `SolvePoisson`, `Advect` and `SwapBuffers` calls in which
`SwapBuffers(true)` occurs only if `Init` allocated `m_pSrcUnknown`, every call returns,
`m_pSrcUnknown` is null after the sequence if and only if it was null after `Init`, and
`m_pSrcKnown` and `m_pDstUnknown` are not null. -/
theorem mode_fixed_after_Init (cfg : SharedMacros) (p : Poisson3D) (dev : Device)
    (uWidth uHeight uDepth uStride : Nat) (format : DXGI_FORMAT) (ctx : Context)
    (ops : List Poisson3D.Op)
    (hops : ∀ op ∈ ops, op = Poisson3D.Op.SwapBuffers true →
      (p.Init cfg dev uWidth uHeight uDepth uStride format).1.m_pSrcUnknown ≠ none) :
    ∃ p' ctx',
      Poisson3D.steps ops (p.Init cfg dev uWidth uHeight uDepth uStride format).1 ctx =
        some (p', ctx') ∧
      (p'.m_pSrcUnknown = none ↔
        (p.Init cfg dev uWidth uHeight uDepth uStride format).1.m_pSrcUnknown = none) ∧
      p'.m_pSrcKnown ≠ none ∧ p'.m_pDstUnknown ≠ none := by
  obtain ⟨p', ctx', heq, hk, hd, hu⟩ :=
    steps_mode ops (p.Init cfg dev uWidth uHeight uDepth uStride format).1.m_pSrcUnknown.isSome
      (p.Init cfg dev uWidth uHeight uDepth uStride format).1 ctx
      (by simp [Poisson3D.Init, Device.Create]) (by simp [Poisson3D.Init, Device.Create]) rfl
      (fun op hop h => Option.isSome_iff_ne_none.2 (hops op hop h))
  refine ⟨p', ctx', heq, ?_, Option.isSome_iff_ne_none.1 hk, Option.isSome_iff_ne_none.1 hd⟩
  rw [← Option.not_isSome_iff_eq_none, ← Option.not_isSome_iff_eq_none, hu]

/-- C6, amended, at a Jacobi-mode solver and a sequence with two `SwapBuffers(true)` calls. -/
theorem mode_fixed_after_Init_witness :
    (∀ op ∈ [Poisson3D.Op.SwapBuffers true, Poisson3D.Op.SolvePoisson 3,
          Poisson3D.Op.ComputeDivergence (some 9), Poisson3D.Op.SwapBuffers true,
          Poisson3D.Op.Advect (some 9)],
        op = Poisson3D.Op.SwapBuffers true →
        (Poisson3D.new.Init defaultBuild { textures := [] } 8 8 8 8
          DXGI_FORMAT.R16G16B16A16_FLOAT).1.m_pSrcUnknown ≠ none) ∧
    ∃ p' ctx',
      Poisson3D.steps [Poisson3D.Op.SwapBuffers true, Poisson3D.Op.SolvePoisson 3,
          Poisson3D.Op.ComputeDivergence (some 9), Poisson3D.Op.SwapBuffers true,
          Poisson3D.Op.Advect (some 9)]
        (Poisson3D.new.Init defaultBuild { textures := [] } 8 8 8 8
          DXGI_FORMAT.R16G16B16A16_FLOAT).1
        Context.init = some (p', ctx') ∧
      (p'.m_pSrcUnknown = none ↔
        (Poisson3D.new.Init defaultBuild { textures := [] } 8 8 8 8
          DXGI_FORMAT.R16G16B16A16_FLOAT).1.m_pSrcUnknown = none) ∧
      p'.m_pSrcKnown ≠ none ∧ p'.m_pDstUnknown ≠ none :=
  ⟨by decide,
   mode_fixed_after_Init defaultBuild Poisson3D.new { textures := [] } 8 8 8 8
     DXGI_FORMAT.R16G16B16A16_FLOAT Context.init _ (by decide)⟩

/-- C7, as stated, fails: with work groups of 8 x 8 x 8 cells, `Init(12, 0, 8)` (one dimension not
divisible, one zero) reports nothing, allocates the seven textures and sets the dispatch extent to
(1, 0, 1); a following `Simulate` returns, and each of its seven dispatches has that extent,
which does not cover the width of 12. -/
theorem Init_invalid_dimensions_counterexample :
    ((Fluid3D.new defaultBuild).Init defaultBuild { textures := [] } 12 0 8).2.textures.length = 7 ∧
    ((Fluid3D.new defaultBuild).Init defaultBuild { textures := [] } 12 0 8).1.m_vThreadGroupSize =
      (1, 0, 1) ∧
    (Fluid3D.run defaultBuild { textures := [] } 12 0 8 [0]).map
        (fun r => r.2.log.map (fun d => d.groups)) =
      some [(1, 0, 1), (1, 0, 1), (1, 0, 1), (1, 0, 1), (1, 0, 1), (1, 0, 1), (1, 0, 1)] ∧
    1 * defaultBuild.THREAD_BLOCK_X ≠ 12 := by
  decide

/-- C7, amended.  Neither `Init` validates the grid dimensions or reports an error: for every
(uWidth, uHeight, uDepth), `Fluid3D::Init` creates its textures, all with the requested extents,
and sets the dispatch extent of the pipeline and of both solvers to the integer quotients of the
dimensions by the work-group sizes.  Along every axis whose dimension is divisible by the
work-group size, the dispatch extent times the work-group size equals the dimension. -/
theorem Init_dispatch_extent (cfg : SharedMacros) (dev : Device) (uWidth uHeight uDepth : Nat) :
    ((Fluid3D.new cfg).Init cfg dev uWidth uHeight uDepth).1.m_vThreadGroupSize =
      (uWidth / cfg.THREAD_BLOCK_X, uHeight / cfg.THREAD_BLOCK_Y, uDepth / cfg.THREAD_BLOCK_Z) ∧
    ((Fluid3D.new cfg).Init cfg dev uWidth uHeight uDepth).1.m_pDiffuse.m_vThreadGroupSize =
      (uWidth / cfg.THREAD_BLOCK_X, uHeight / cfg.THREAD_BLOCK_Y, uDepth / cfg.THREAD_BLOCK_Z) ∧
    ((Fluid3D.new cfg).Init cfg dev uWidth uHeight uDepth).1.m_pPressure.m_vThreadGroupSize =
      (uWidth / cfg.THREAD_BLOCK_X, uHeight / cfg.THREAD_BLOCK_Y, uDepth / cfg.THREAD_BLOCK_Z) ∧
    (∃ created,
      ((Fluid3D.new cfg).Init cfg dev uWidth uHeight uDepth).2.textures =
        dev.textures ++ created ∧
      created.length = densityCount cfg + 5 ∧
      ∀ t ∈ created, t.uWidth = uWidth ∧ t.uHeight = uHeight ∧ t.uDepth = uDepth) ∧
    (cfg.THREAD_BLOCK_X ∣ uWidth → uWidth / cfg.THREAD_BLOCK_X * cfg.THREAD_BLOCK_X = uWidth) ∧
    (cfg.THREAD_BLOCK_Y ∣ uHeight → uHeight / cfg.THREAD_BLOCK_Y * cfg.THREAD_BLOCK_Y = uHeight) ∧
    (cfg.THREAD_BLOCK_Z ∣ uDepth → uDepth / cfg.THREAD_BLOCK_Z * cfg.THREAD_BLOCK_Z = uDepth) := by
  refine ⟨?_, ?_, ?_, ?_, Nat.div_mul_cancel, Nat.div_mul_cancel, Nat.div_mul_cancel⟩
  · rw [Init_roles]; rfl
  · rw [Init_roles]; rfl
  · rw [Init_roles]; rfl
  · refine ⟨initTextures cfg uWidth uHeight uDepth, Init_textures cfg dev uWidth uHeight uDepth, ?_, ?_⟩
    · cases hm : cfg.MACCORMACK <;> simp [initTextures, densityCount, hm]
    · intro t ht
      cases hm : cfg.MACCORMACK <;> simp [initTextures, hm] at ht <;>
      (rcases ht with rfl | rfl | rfl | rfl | rfl | rfl | rfl | rfl <;> exact ⟨rfl, rfl, rfl⟩)

/-- C7, amended, at the grid 16 x 24 x 8 with work groups of 8 x 8 x 8 cells. -/
theorem Init_dispatch_extent_witness :
    defaultBuild.THREAD_BLOCK_X ∣ 16 ∧ defaultBuild.THREAD_BLOCK_Y ∣ 24 ∧
    defaultBuild.THREAD_BLOCK_Z ∣ 8 ∧
    ((Fluid3D.new defaultBuild).Init defaultBuild { textures := [] } 16 24 8).1.m_vThreadGroupSize =
      (2, 3, 1) ∧
    16 / defaultBuild.THREAD_BLOCK_X * defaultBuild.THREAD_BLOCK_X = 16 ∧
    24 / defaultBuild.THREAD_BLOCK_Y * defaultBuild.THREAD_BLOCK_Y = 24 ∧
    8 / defaultBuild.THREAD_BLOCK_Z * defaultBuild.THREAD_BLOCK_Z = 8 :=
  ⟨by decide, by decide, by decide,
   (Init_dispatch_extent defaultBuild { textures := [] } 16 24 8).1,
   (Init_dispatch_extent defaultBuild { textures := [] } 16 24 8).2.2.2.2.1 (by decide),
   (Init_dispatch_extent defaultBuild { textures := [] } 16 24 8).2.2.2.2.2.1 (by decide),
   (Init_dispatch_extent defaultBuild { textures := [] } 16 24 8).2.2.2.2.2.2 (by decide)⟩

/-- C8. From every state reached by `Init` and any sequence of `Simulate` calls, one more
`Simulate` (any viscosity iteration count, any build) returns.  Its dispatches are those of
advection and diffusion, then impulse, divergence, pressure, bound, projection, bound, then the
pressure advection when compiled in.  On return `m_pSrcDensity` is the buffer bound to the second
unordered-access slot of the impulse dispatch, `m_pSrcVelocity` is the buffer bound to the first
unordered-access slot of the second bound dispatch, current and next are different buffers in both
fields, and `Render`, called with a non-null swap-chain view, returns after one dispatch that has
`m_pSrcDensity` as its shader resource and the swap chain as its unordered-access target (on a
null view it dereferences null and has no result).  `project` and `bound` never change the density
handles. -/
theorem Simulate_exposes_last_written (cfg : SharedMacros) (dev : Device)
    (uWidth uHeight uDepth : Nat) (its : List Nat) (uItVisc : Nat) :
    ∃ f ctx f' ctx' pre rI rDiv rGS rB1 rP rB2 post,
      Fluid3D.run cfg dev uWidth uHeight uDepth its = some (f, ctx) ∧
      f.Simulate cfg ctx uItVisc = some (f', ctx') ∧
      ctx'.log = ctx.log ++ (pre ++ ([rI, rDiv, rGS, rB1, rP, rB2] ++ post)) ∧
      pre.map (fun r => r.shader) =
        (if cfg.MACCORMACK then
          [some cfg.g_uCSAdvect, some cfg.g_uCSAdvect, some cfg.g_uCSMacCormack]
         else [some cfg.g_uCSAdvect]) ++ List.replicate (uItVisc % 256) (some cfg.g_uCSDiffuse) ∧
      [rI, rDiv, rGS, rB1, rP, rB2].map (fun r => r.shader) =
        [some cfg.g_uCSImpulse, some cfg.g_uCSDivergence, some cfg.g_uCSPressure,
         some cfg.g_uCSBound, some cfg.g_uCSProject, some cfg.g_uCSBound] ∧
      post.map (fun r => r.shader) =
        (if cfg.ADVECT_PRESSURE then [some cfg.g_uCSTemporal] else []) ∧
      f'.m_pSrcDensity = Slots.view rI.uav (f.m_uUASlot + 1) ∧
      f'.m_pSrcVelocity = Slots.view rB2.uav f.m_uUASlot ∧
      (∃ sv dv sd dd,
        f'.m_pSrcVelocity = some sv ∧ f'.m_pDstVelocity = some dv ∧ sv ≠ dv ∧
        f'.m_pSrcDensity = some sd ∧ f'.m_pDstDensity = some dd ∧ sd ≠ dd) ∧
      (∀ (sc : Buf) (wd ht : Nat), ∃ ctxR rR,
        f'.Render cfg ctx' (some sc) wd ht = some ctxR ∧ ctxR.log = ctx'.log ++ [rR] ∧
        Slots.view rR.srv f'.m_uSRField = f'.m_pSrcDensity ∧
        Slots.view rR.uav f'.m_uUASlot = some sc) ∧
      (∀ (wd ht : Nat), f'.Render cfg ctx' none wd ht = none) ∧
      (∀ (g g' : Fluid3D) (c c' : Context), g.project cfg c = some (g', c') →
        g'.m_pSrcDensity = g.m_pSrcDensity ∧ g'.m_pDstDensity = g.m_pDstDensity) ∧
      (∀ (g g' : Fluid3D) (c c' : Context), g.bound cfg c = some (g', c') →
        g'.m_pSrcDensity = g.m_pSrcDensity ∧ g'.m_pDstDensity = g.m_pDstDensity) := by
  obtain ⟨vk, vd, vu, ds, dd, dt, pk, pd, cs, recs, heq, hnd, hmac, -, -⟩ :=
    run_roles cfg dev uWidth uHeight uDepth its
  obtain ⟨a, b, c, e, f, dt', cs', pre, heq', hnd', -, -, hpre⟩ :=
    Simulate_roles cfg _ vk vd vu ds dd dt pk pd cs recs uItVisc hnd hmac
  have hne := roles_ne a b c f e pk pd _ hnd'
  refine ⟨_, _, _, _, pre, _, _, _, _, _, _, _, heq, heq', rfl, hpre, rfl, ?_, rfl, rfl,
    ⟨a, b, f, e, rfl, rfl, hne.1.1, rfl, rfl, hne.2.2.2.1.1⟩, ?_, ?_,
    fun g g' c c' h => project_density cfg g g' c c' h,
    fun g g' c c' h => bound_density cfg g g' c c' h⟩
  · cases cfg.ADVECT_PRESSURE <;> rfl
  · intro sc wd ht
    obtain ⟨ctxR, rR, h1, h2, h3, h4⟩ := Render_roles cfg
      (uWidth / cfg.THREAD_BLOCK_X, uHeight / cfg.THREAD_BLOCK_Y, uDepth / cfg.THREAD_BLOCK_Z)
      a b c f e dt' (if cfg.ADVECT_PRESSURE then pd else pk)
      (if cfg.ADVECT_PRESSURE then pk else pd) cs'
      (recs ++ (pre ++ tailRecs cfg
        (uWidth / cfg.THREAD_BLOCK_X, uHeight / cfg.THREAD_BLOCK_Y, uDepth / cfg.THREAD_BLOCK_Z)
        a b e f pk pd)) sc wd ht
    refine ⟨ctxR, rR, h1, h2, ?_, ?_⟩
    · rw [h3]
      rfl
    · rw [h4]
      rfl
  · intro wd ht
    simp [Fluid3D.Render]

/-- C9. In the default build, from every state reached by `Init` and any sequence of `Simulate`
calls, `Simulate` with `uItVisc = n`, `n` at most 255, returns after exactly `n + 7` dispatches:
Advect, `n` times Diffuse, Impulse, Divergence, Pressure, Bound, Project, Bound.  `diffuse(0)`
returns every state and context unchanged. -/
theorem Simulate_dispatch_trace (cfg : SharedMacros) (dev : Device)
    (uWidth uHeight uDepth : Nat) (its : List Nat) (n : Nat)
    (hmac : cfg.MACCORMACK = false) (hap : cfg.ADVECT_PRESSURE = false) (hn : n ≤ 255) :
    ∃ f ctx f' ctx' recs,
      Fluid3D.run cfg dev uWidth uHeight uDepth its = some (f, ctx) ∧
      f.Simulate cfg ctx n = some (f', ctx') ∧
      ctx'.log = ctx.log ++ recs ∧
      recs.length = n + 7 ∧
      recs.map (fun r => r.shader) =
        [some cfg.g_uCSAdvect] ++ List.replicate n (some cfg.g_uCSDiffuse) ++
        [some cfg.g_uCSImpulse, some cfg.g_uCSDivergence, some cfg.g_uCSPressure,
         some cfg.g_uCSBound, some cfg.g_uCSProject, some cfg.g_uCSBound] ∧
      ∀ (g : Fluid3D) (c : Context), g.diffuse c 0 = some (g, c) := by
  obtain ⟨vk, vd, vu, ds, dd, dt, pk, pd, cs, recs, heq, hnd, hmac', -, -⟩ :=
    run_roles cfg dev uWidth uHeight uDepth its
  obtain ⟨a, b, c, e, f, dt', cs', pre, heq', -, -, -, hpre⟩ :=
    Simulate_roles cfg _ vk vd vu ds dd dt pk pd cs recs n hnd hmac'
  have hmod : n % 256 = n := Nat.mod_eq_of_lt (by omega)
  rw [hmod] at hpre
  simp only [hmac, Bool.false_eq_true, if_false] at hpre
  have hmapall : (pre ++ tailRecs cfg
      (uWidth / cfg.THREAD_BLOCK_X, uHeight / cfg.THREAD_BLOCK_Y, uDepth / cfg.THREAD_BLOCK_Z)
      a b e f pk pd).map (fun r => r.shader) =
      [some cfg.g_uCSAdvect] ++ List.replicate n (some cfg.g_uCSDiffuse) ++
        [some cfg.g_uCSImpulse, some cfg.g_uCSDivergence, some cfg.g_uCSPressure,
         some cfg.g_uCSBound, some cfg.g_uCSProject, some cfg.g_uCSBound] := by
    rw [List.map_append, hpre]
    simp [tailRecs, hap]
  refine ⟨_, _, _, _, _, heq, heq', rfl, ?_, hmapall, ?_⟩
  · have := congrArg List.length hmapall
    simp only [List.length_map] at this
    rw [this]
    simp
  · intro g c
    simp [Fluid3D.diffuse]

/-- C9 at the default build, after two earlier steps, with two viscosity iterations. -/
theorem Simulate_dispatch_trace_witness :
    defaultBuild.MACCORMACK = false ∧ defaultBuild.ADVECT_PRESSURE = false ∧ 2 ≤ 255 ∧
    ∃ f ctx f' ctx' recs,
      Fluid3D.run defaultBuild { textures := [] } 16 16 16 [0, 3] = some (f, ctx) ∧
      f.Simulate defaultBuild ctx 2 = some (f', ctx') ∧
      ctx'.log = ctx.log ++ recs ∧
      recs.length = 2 + 7 ∧
      recs.map (fun r => r.shader) =
        [some defaultBuild.g_uCSAdvect] ++ List.replicate 2 (some defaultBuild.g_uCSDiffuse) ++
        [some defaultBuild.g_uCSImpulse, some defaultBuild.g_uCSDivergence,
         some defaultBuild.g_uCSPressure, some defaultBuild.g_uCSBound,
         some defaultBuild.g_uCSProject, some defaultBuild.g_uCSBound] ∧
      ∀ (g : Fluid3D) (c : Context), g.diffuse c 0 = some (g, c) :=
  ⟨rfl, rfl, by decide,
   Simulate_dispatch_trace defaultBuild { textures := [] } 16 16 16 [0, 3] 2 rfl rfl (by decide)⟩

/-- C10. Without `_ADVECT_PRESSURE_`: let A and B be the buffers `Init` creates as `m_pSrcKnown`
(format `R32_FLOAT`, no initial data) and as `m_pDstUnknown` (zero-filled) of the pressure
solver.  From every state reached by `Init` and any sequence of `Simulate` calls the pressure
solver holds A as known and B as unknown, and in one more `Simulate` the divergence dispatch
writes B, the pressure dispatch has B as its only shader resource and A as its unordered-access
target, the projection dispatch reads A in its second shader-resource slot, and on return the
pressure solver is again the one `Init` produced. -/
theorem pressure_buffers_fixed (cfg : SharedMacros) (dev : Device)
    (uWidth uHeight uDepth : Nat) (its : List Nat) (uItVisc : Nat)
    (hap : cfg.ADVECT_PRESSURE = false) :
    ∃ A B,
      ((Fluid3D.new cfg).Init cfg dev uWidth uHeight uDepth).1.m_pPressure.m_pSrcKnown = some A ∧
      ((Fluid3D.new cfg).Init cfg dev uWidth uHeight uDepth).1.m_pPressure.m_pDstUnknown = some B ∧
      ((Fluid3D.new cfg).Init cfg dev uWidth uHeight uDepth).1.m_pPressure.m_pSrcUnknown = none ∧
      ((Fluid3D.new cfg).Init cfg dev uWidth uHeight uDepth).2.textures.get? A =
        some { uWidth := uWidth, uHeight := uHeight, uDepth := uDepth,
               format := DXGI_FORMAT.R32_FLOAT, zeroData := none } ∧
      ((Fluid3D.new cfg).Init cfg dev uWidth uHeight uDepth).2.textures.get? B =
        some { uWidth := uWidth, uHeight := uHeight, uDepth := uDepth,
               format := DXGI_FORMAT.R32_FLOAT,
               zeroData := some ((4 * uWidth * uHeight * uDepth) % 2 ^ 32) } ∧
      ∃ f ctx f' ctx' pre rI rDiv rGS rB1 rP rB2,
        Fluid3D.run cfg dev uWidth uHeight uDepth its = some (f, ctx) ∧
        f.m_pPressure = ((Fluid3D.new cfg).Init cfg dev uWidth uHeight uDepth).1.m_pPressure ∧
        f.Simulate cfg ctx uItVisc = some (f', ctx') ∧
        ctx'.log = ctx.log ++ (pre ++ [rI, rDiv, rGS, rB1, rP, rB2]) ∧
        pre.length = (if cfg.MACCORMACK then 3 else 1) + uItVisc % 256 ∧
        [rI, rDiv, rGS, rB1, rP, rB2].map (fun r => r.shader) =
          [some cfg.g_uCSImpulse, some cfg.g_uCSDivergence, some cfg.g_uCSPressure,
           some cfg.g_uCSBound, some cfg.g_uCSProject, some cfg.g_uCSBound] ∧
        Slots.view rDiv.uav f.m_pPressure.m_uUASlot = some B ∧
        rGS.srv = [(f.m_pPressure.m_uSRField, B)] ∧
        Slots.view rGS.uav f.m_pPressure.m_uUASlot = some A ∧
        Slots.view rP.srv (f.m_uSRField + 1) = some A ∧
        f'.m_pPressure = ((Fluid3D.new cfg).Init cfg dev uWidth uHeight uDepth).1.m_pPressure := by
  obtain ⟨vk, vd, vu, ds, dd, dt, pk, pd, cs, recs, heq, hnd, hmac', -, hp⟩ :=
    run_roles cfg dev uWidth uHeight uDepth its
  obtain ⟨rfl, rfl⟩ := hp hap
  obtain ⟨a, b, c, e, f, dt', cs', pre, heq', -, -, -, hpre⟩ :=
    Simulate_roles cfg
      (uWidth / cfg.THREAD_BLOCK_X, uHeight / cfg.THREAD_BLOCK_Y, uDepth / cfg.THREAD_BLOCK_Z)
      vk vd vu ds dd dt _ _ cs recs uItVisc hnd hmac'
  have hlen : pre.length = (if cfg.MACCORMACK then 3 else 1) + uItVisc % 256 := by
    have := congrArg List.length hpre
    simp only [List.length_map, List.length_append, List.length_replicate] at this
    rw [this]
    cases cfg.MACCORMACK <;> rfl
  rw [tailRecs_default cfg _ _ _ _ _ _ _ hap] at heq'
  have hInit := Init_roles cfg dev uWidth uHeight uDepth
  have hTex := Init_textures cfg dev uWidth uHeight uDepth
  refine ⟨dev.textures.length + densityCount cfg + 3, dev.textures.length + densityCount cfg + 4,
    by rw [hInit]; rfl, by rw [hInit]; rfl, by rw [hInit]; rfl, ?_, ?_,
    _, _, _, _, pre, _, _, _, _, _, _, heq, by rw [hInit]; rfl, heq', rfl, hlen, rfl, rfl, rfl,
    rfl, rfl, ?_⟩
  · rw [hTex, Nat.add_assoc, get_append_add]
    cases hm : cfg.MACCORMACK <;> simp [initTextures, densityCount, hm]
  · rw [hTex, Nat.add_assoc, get_append_add]
    cases hm : cfg.MACCORMACK <;> simp [initTextures, densityCount, hm]
  · rw [hInit]
    simp [Fluid3D.ofRoles, hap]

/-- C10 at the default build, grid 16 x 16 x 16, after two earlier steps. -/
theorem pressure_buffers_fixed_witness :
    defaultBuild.ADVECT_PRESSURE = false ∧
    ∃ A B,
      ((Fluid3D.new defaultBuild).Init defaultBuild { textures := [] }
        16 16 16).1.m_pPressure.m_pSrcKnown = some A ∧
      ((Fluid3D.new defaultBuild).Init defaultBuild { textures := [] }
        16 16 16).1.m_pPressure.m_pDstUnknown = some B ∧
      ((Fluid3D.new defaultBuild).Init defaultBuild { textures := [] }
        16 16 16).1.m_pPressure.m_pSrcUnknown = none ∧
      ((Fluid3D.new defaultBuild).Init defaultBuild { textures := [] } 16 16 16).2.textures.get? A =
        some { uWidth := 16, uHeight := 16, uDepth := 16,
               format := DXGI_FORMAT.R32_FLOAT, zeroData := none } ∧
      ((Fluid3D.new defaultBuild).Init defaultBuild { textures := [] } 16 16 16).2.textures.get? B =
        some { uWidth := 16, uHeight := 16, uDepth := 16,
               format := DXGI_FORMAT.R32_FLOAT,
               zeroData := some ((4 * 16 * 16 * 16) % 2 ^ 32) } ∧
      ∃ f ctx f' ctx' pre rI rDiv rGS rB1 rP rB2,
        Fluid3D.run defaultBuild { textures := [] } 16 16 16 [1, 0] = some (f, ctx) ∧
        f.m_pPressure =
          ((Fluid3D.new defaultBuild).Init defaultBuild { textures := [] } 16 16 16).1.m_pPressure ∧
        f.Simulate defaultBuild ctx 2 = some (f', ctx') ∧
        ctx'.log = ctx.log ++ (pre ++ [rI, rDiv, rGS, rB1, rP, rB2]) ∧
        pre.length = (if defaultBuild.MACCORMACK then 3 else 1) + 2 % 256 ∧
        [rI, rDiv, rGS, rB1, rP, rB2].map (fun r => r.shader) =
          [some defaultBuild.g_uCSImpulse, some defaultBuild.g_uCSDivergence,
           some defaultBuild.g_uCSPressure, some defaultBuild.g_uCSBound,
           some defaultBuild.g_uCSProject, some defaultBuild.g_uCSBound] ∧
        Slots.view rDiv.uav f.m_pPressure.m_uUASlot = some B ∧
        rGS.srv = [(f.m_pPressure.m_uSRField, B)] ∧
        Slots.view rGS.uav f.m_pPressure.m_uUASlot = some A ∧
        Slots.view rP.srv (f.m_uSRField + 1) = some A ∧
        f'.m_pPressure =
          ((Fluid3D.new defaultBuild).Init defaultBuild { textures := [] } 16 16 16).1.m_pPressure :=
  ⟨rfl, pressure_buffers_fixed defaultBuild { textures := [] } 16 16 16 [1, 0] 2 rfl⟩

end Smoke3D
